import Mathlib

/-!
# Projector windows (UI/window-projector.cpp)

A shallow embedding of the multiview projector code: the slot and label
arrays filled by `OBSProjector::UpdateMultiview`, the cell geometry of
`OBSProjector::OBSRenderMultiview` (`calcBaseSource`, `calcPreviewProgram`),
the click hit-test `getSourceByPosition`, the two mouse handlers and the
two static projector registries.

Conventions of the embedding

* An `obs_source_t *` is a natural number (the identity of the source); a
  null pointer or an empty `OBSSource` / `OBSWeakSource` is `none`.
* `int` values are mathematical integers, `/` on them is `Int.tdiv`
  (truncation towards zero) and is undefined for a zero divisor.
* `float` values are exact rationals; a division by zero has no exact
  value and makes the computation undefined.
* A computation that is undefined (zero divisor, array index outside the
  array) returns `none`.
-/

namespace Projector

/-! ## Data model -/

/-- Modelled from the spec: the `MultiviewLayout` enumeration is declared in a
header outside this file; the four names are the ones the switch statements
use, `unlisted` stands for any other value the cast from the configuration
integer can produce (it takes the `default:` branch). -/
inductive MultiviewLayout where
  | HORIZONTAL_TOP_8_SCENES
  | HORIZONTAL_BOTTOM_8_SCENES
  | VERTICAL_LEFT_8_SCENES
  | VERTICAL_RIGHT_8_SCENES
  | unlisted
  deriving DecidableEq, Repr

/-- Modelled from the spec: the `ProjectorType` enumeration is declared in a
header outside this file; these are the values the file names, `Other` is
any further value (the `default:` of `UpdateProjectorTitle`). -/
inductive ProjectorType where
  | Source
  | Scene
  | Preview
  | Multiview
  | Other
  deriving DecidableEq, Repr

/-- A scene as `obs_frontend_get_scenes` returns it: its identity, its name
and the value of the private setting `"show_in_multiview"` (`none` when the
setting was never written). -/
structure FrontendScene where
  id : Nat
  name : String
  show_in_multiview : Option Bool
  deriving DecidableEq, Repr

/-- The private text source built by `CreateLabel`: the source name, the
`"text"` setting and the height argument the font size is derived from. -/
structure Label where
  name : String
  text : String
  h : Nat
  deriving DecidableEq, Repr

/-- A call that changes a showing count. -/
inductive ShowingCall where
  | inc (src : Nat)
  | dec (src : Nat)
  deriving DecidableEq, Repr

/-- What `UpdateMultiview` reads from its surroundings: the video info, the
frontend scene list, the localised strings and the configured layout. -/
structure Frontend where
  base_width : Nat
  base_height : Nat
  scenes : List FrontendScene
  Str : String → String
  layout : MultiviewLayout

/-- The fields of an `OBSProjector` the embedded functions use. The two
arrays have eight and ten elements. -/
structure OBSProjector where
  source : Option Nat
  savedMonitor : Int
  isWindow : Bool
  type : ProjectorType
  projectorTitle : String
  windowTitle : String
  ready : Bool
  multiviewScenes : Fin 8 → Option Nat
  multiviewLabels : Fin 10 → Option Label

/-! ## CreateLabel and UpdateMultiview -/

/-- `CreateLabel(name, h)`: the text is the name between two blanks. -/
def CreateLabel (name : String) (h : Nat) : Label :=
  { name := name, text := " " ++ name ++ " ", h := h }

/-- `obs_data_set_default_bool(data, key, dflt)` followed by
`obs_data_get_bool(data, key)`: the stored value, or the default. -/
def obs_data_get_bool_default (stored : Option Bool) (dflt : Bool) : Bool :=
  match stored with
  | some b => b
  | none => dflt

/-- The state the scene loop of `UpdateMultiview` carries. -/
structure LoopState where
  curIdx : Nat
  multiviewScenes : Fin 8 → Option Nat
  multiviewLabels : Fin 10 → Option Label
  calls : List ShowingCall

/-- The loop `for (i = 0; i < scenes.sources.num && curIdx < 8; i++)` of
`UpdateMultiview`, on the scenes not yet visited. -/
def UpdateMultiview.loop (h : Nat) : List FrontendScene → LoopState → LoopState
  | [], st => st
  | src :: rest, st =>
    if hc : st.curIdx < 8 then
      if !obs_data_get_bool_default src.show_in_multiview true then
        UpdateMultiview.loop h rest st
      else
        let name := toString (st.curIdx + 1) ++ " - " ++ src.name
        UpdateMultiview.loop h rest
          { curIdx := st.curIdx + 1
            multiviewScenes := Function.update st.multiviewScenes ⟨st.curIdx, hc⟩ (some src.id)
            multiviewLabels :=
              Function.update st.multiviewLabels ⟨st.curIdx + 2, by omega⟩
                (some (CreateLabel name (h / 3)))
            calls := st.calls ++ [ShowingCall.inc src.id] }
    else st

/-- The result of `UpdateMultiview`: the projector with its arrays refilled,
the showing calls made, and the new value of the static `multiviewLayout`. -/
structure UpdateResult where
  projector : OBSProjector
  calls : List ShowingCall
  multiviewLayout : MultiviewLayout

/-- `OBSProjector::UpdateMultiview`. -/
def UpdateMultiview (env : Frontend) (p : OBSProjector) : UpdateResult :=
  let h := env.base_height
  let labels0 : Fin 10 → Option Label := fun _ => none
  let labels1 := Function.update labels0 0 (some (CreateLabel (env.Str "StudioMode.Preview") (h / 2)))
  let labels2 := Function.update labels1 1 (some (CreateLabel (env.Str "StudioMode.Program") (h / 2)))
  let st := UpdateMultiview.loop h env.scenes
    { curIdx := 0, multiviewScenes := fun _ => none, multiviewLabels := labels2, calls := [] }
  { projector := { p with multiviewScenes := st.multiviewScenes, multiviewLabels := st.multiviewLabels }
    calls := st.calls
    multiviewLayout := env.layout }

/-- The scenes of the frontend list that are shown in the multiview, in list
order. -/
def visibleScenes (scenes : List FrontendScene) : List FrontendScene :=
  scenes.filter (fun s => obs_data_get_bool_default s.show_in_multiview true)

/-! ## Cell geometry of OBSRenderMultiview -/

/-- The border `thickness` of `OBSRenderMultiview`. -/
def thickness : Nat := 4

/-- The local `thicknessx2 = thickness * 2`. -/
def thicknessx2 : Nat := thickness * 2

/-- The sizes `OBSRenderMultiview` derives from the base canvas size
(lines 304-321); the four scale factors, which no placement uses, are left
out. -/
structure Geometry where
  targetCXF : ℚ
  targetCYF : ℚ
  halfCX : ℚ
  halfCY : ℚ
  hiCX : ℚ
  hiCY : ℚ
  quarterCX : ℚ
  quarterCY : ℚ
  qiCX : ℚ
  qiCY : ℚ

/-- The assignments of lines 304-319 for `targetCX = ovi.base_width` and
`targetCY = ovi.base_height`. -/
def geometry (targetCX targetCY : Nat) : Geometry :=
  let targetCXF : ℚ := targetCX
  let targetCYF : ℚ := targetCY
  let halfCX := targetCXF / 2
  let halfCY := targetCYF / 2
  let quarterCX := halfCX / 2
  let quarterCY := halfCY / 2
  { targetCXF := targetCXF
    targetCYF := targetCYF
    halfCX := halfCX
    halfCY := halfCY
    hiCX := halfCX - thicknessx2
    hiCY := halfCY - thicknessx2
    quarterCX := quarterCX
    quarterCY := quarterCY
    qiCX := quarterCX - thicknessx2
    qiCY := quarterCY - thicknessx2 }

/-- The variables `calcBaseSource` assigns. -/
structure BaseSource where
  sourceX : ℚ
  sourceY : ℚ
  qiX : ℚ
  qiY : ℚ

/-- The lambda `calcBaseSource(i)` of `OBSRenderMultiview`. -/
def calcBaseSource (multiviewLayout : MultiviewLayout) (g : Geometry) (i : Nat) : BaseSource :=
  let pos : ℚ × ℚ :=
    match multiviewLayout with
    | .VERTICAL_LEFT_8_SCENES =>
      let sourceX := g.halfCX
      let sourceY := ((i / 2 : Nat) : ℚ) * g.quarterCY
      if i % 2 ≠ 0 then (sourceX + g.quarterCX, sourceY) else (sourceX, sourceY)
    | .VERTICAL_RIGHT_8_SCENES =>
      let sourceX : ℚ := 0
      let sourceY := ((i / 2 : Nat) : ℚ) * g.quarterCY
      if i % 2 ≠ 0 then (g.quarterCX, sourceY) else (sourceX, sourceY)
    | .HORIZONTAL_BOTTOM_8_SCENES =>
      if i < 4 then ((i : ℚ) * g.quarterCX, 0)
      else (((i - 4 : Nat) : ℚ) * g.quarterCX, g.quarterCY)
    | _ =>
      if i < 4 then ((i : ℚ) * g.quarterCX, g.halfCY)
      else (((i - 4 : Nat) : ℚ) * g.quarterCX, g.halfCY + g.quarterCY)
  { sourceX := pos.1
    sourceY := pos.2
    qiX := pos.1 + thickness
    qiY := pos.2 + thickness }

/-- The variables `calcPreviewProgram` assigns. -/
structure PreviewProgram where
  sourceX : ℚ
  sourceY : ℚ
  labelX : ℚ
  labelY : ℚ

/-- The lambda `calcPreviewProgram(program)` of `OBSRenderMultiview`; `offset`
is the label offset computed just before the call, the constants `1.85f` and
`0.85f` are read as the decimals they spell. -/
def calcPreviewProgram (multiviewLayout : MultiviewLayout) (g : Geometry) (offset : Nat)
    (program : Bool) : PreviewProgram :=
  match multiviewLayout with
  | .VERTICAL_LEFT_8_SCENES =>
    if program then
      { sourceX := thickness, sourceY := thickness,
        labelX := offset, labelY := g.halfCY * (85 / 100) }
    else
      { sourceX := thickness, sourceY := g.halfCY + thickness,
        labelX := offset, labelY := g.halfCY * (185 / 100) }
  | .VERTICAL_RIGHT_8_SCENES =>
    if program then
      { sourceX := g.halfCX + thickness, sourceY := thickness,
        labelX := g.halfCX + offset, labelY := g.halfCY * (85 / 100) }
    else
      { sourceX := g.halfCX + thickness, sourceY := g.halfCY + thickness,
        labelX := g.halfCX + offset, labelY := g.halfCY * (185 / 100) }
  | .HORIZONTAL_BOTTOM_8_SCENES =>
    if program then
      { sourceX := thickness + g.halfCX, sourceY := g.halfCY + thickness,
        labelX := offset + g.halfCX, labelY := g.halfCY * (185 / 100) }
    else
      { sourceX := thickness, sourceY := g.halfCY + thickness,
        labelX := offset, labelY := g.halfCY * (185 / 100) }
  | _ =>
    if program then
      { sourceX := thickness + g.halfCX, sourceY := thickness,
        labelX := offset + g.halfCX, labelY := g.halfCY * (85 / 100) }
    else
      { sourceX := thickness, sourceY := thickness,
        labelX := offset, labelY := g.halfCY * (85 / 100) }

/-- The points `paintAreaWithColor(tx, ty, cx, cy, color)` covers: the
rectangle with origin `(tx, ty)` and size `cx` x `cy`, its right and bottom
edges excluded. -/
def inArea (tx ty cx cy : ℚ) (p : ℚ × ℚ) : Prop :=
  tx ≤ p.1 ∧ p.1 < tx + cx ∧ ty ≤ p.2 ∧ p.2 < ty + cy

/-- The cell of slot `i`: `paintAreaWithColor(sourceX, sourceY, quarterCX,
quarterCY, colorVal)` after `calcBaseSource(i)`. -/
def cellArea (multiviewLayout : MultiviewLayout) (g : Geometry) (i : Nat) (p : ℚ × ℚ) : Prop :=
  inArea (calcBaseSource multiviewLayout g i).sourceX (calcBaseSource multiviewLayout g i).sourceY
    g.quarterCX g.quarterCY p

/-- The rectangle with origin `(tx, ty)` and size `cx` x `cy`, edges
included. -/
def inClosedArea (tx ty cx cy : ℚ) (p : ℚ × ℚ) : Prop :=
  tx ≤ p.1 ∧ p.1 ≤ tx + cx ∧ ty ≤ p.2 ∧ p.2 ≤ ty + cy

/-- The preview (`program = false`) or program (`program = true`) panel:
the region of `setRegion(sourceX, sourceY, hiCX, hiCY)` after
`calcPreviewProgram(program)`, edges included. -/
def panelArea (multiviewLayout : MultiviewLayout) (g : Geometry) (offset : Nat) (program : Bool)
    (p : ℚ × ℚ) : Prop :=
  inClosedArea (calcPreviewProgram multiviewLayout g offset program).sourceX
    (calcPreviewProgram multiviewLayout g offset program).sourceY g.hiCX g.hiCY p

/-! ## The click hit-test -/

/-- A `float` division, read exactly; no value for a zero divisor. -/
def fdiv (a b : ℚ) : Option ℚ :=
  if b = 0 then none else some (a / b)

/-- The conversion of a `float` to `int`: truncation towards zero. -/
def toInt (q : ℚ) : Int :=
  Int.tdiv q.num (q.den : Int)

/-- An `int` division; no value for a zero divisor. -/
def idiv (a b : Int) : Option Int :=
  if b = 0 then none else some (Int.tdiv a b)

/-- The locals `minX`, `maxX`, `minY`, `maxY` of `getSourceByPosition`. -/
structure Bounds where
  minX : Int
  maxX : Int
  minY : Int
  maxY : Int
  deriving DecidableEq, Repr

/-- The first part of every `case` of `getSourceByPosition`: the letterboxed
half of the window that holds the scene grid. `cx` and `cy` are the width and
height of the active window. -/
def gridBounds (multiviewLayout : MultiviewLayout) (ratio : ℚ) (cx cy : Int) : Option Bounds :=
  let halfX := Int.tdiv cx 2
  let halfY := Int.tdiv cy 2
  match fdiv cx cy with
  | none => none
  | some windowRatio =>
    match multiviewLayout with
    | .VERTICAL_LEFT_8_SCENES =>
      if windowRatio > ratio then
        let validX := toInt (cy * ratio)
        some { minX := halfX, maxX := halfX + Int.tdiv validX 2, minY := 0, maxY := cy }
      else
        match fdiv cx ratio with
        | none => none
        | some q =>
          let validY := toInt q
          some { minX := halfX, maxX := cx,
                 minY := halfY - Int.tdiv validY 2, maxY := halfY + Int.tdiv validY 2 }
    | .VERTICAL_RIGHT_8_SCENES =>
      if windowRatio > ratio then
        let validX := toInt (cy * ratio)
        some { minX := halfX - Int.tdiv validX 2, maxX := halfX, minY := 0, maxY := cy }
      else
        match fdiv cx ratio with
        | none => none
        | some q =>
          let validY := toInt q
          some { minX := 0, maxX := halfX,
                 minY := halfY - Int.tdiv validY 2, maxY := halfY + Int.tdiv validY 2 }
    | .HORIZONTAL_BOTTOM_8_SCENES =>
      if windowRatio > ratio then
        let validX := toInt (cy * ratio)
        some { minX := halfX - Int.tdiv validX 2, maxX := halfX + Int.tdiv validX 2,
               minY := 0, maxY := halfY }
      else
        match fdiv cx ratio with
        | none => none
        | some q =>
          let validY := toInt q
          some { minX := 0, maxX := cx, minY := halfY - Int.tdiv validY 2, maxY := halfY }
    | _ =>
      if windowRatio > ratio then
        let validX := toInt (cy * ratio)
        some { minX := halfX - Int.tdiv validX 2, maxX := halfX + Int.tdiv validX 2,
               minY := halfY, maxY := cy }
      else
        match fdiv cx ratio with
        | none => none
        | some q =>
          let validY := toInt q
          some { minX := 0, maxX := cx, minY := halfY, maxY := halfY + Int.tdiv validY 2 }

/-- The second part of every `case` of `getSourceByPosition`, reached when the
click is inside the bounds: the cell index computed from the click. -/
def cellIndex (multiviewLayout : MultiviewLayout) (b : Bounds) (x y : Int) : Option Int :=
  match multiviewLayout with
  | .VERTICAL_LEFT_8_SCENES | .VERTICAL_RIGHT_8_SCENES =>
    match idiv (y - b.minY) (Int.tdiv (b.maxY - b.minY) 4) with
    | none => none
    | some q =>
      let pos := 2 * q
      if x > b.minX + Int.tdiv (b.maxX - b.minX) 2 then some (pos + 1) else some pos
  | _ =>
    match idiv (x - b.minX) (Int.tdiv (b.maxX - b.minX) 4) with
    | none => none
    | some pos =>
      if y > b.minY + Int.tdiv (b.maxY - b.minY) 2 then some (pos + 4) else some pos

/-- `getSourceByPosition(x, y)` for the static `multiviewLayout`, the base
canvas size of `obs_get_video_info` and the size `cx` x `cy` of the active
window. -/
def getSourceByPosition (multiviewLayout : MultiviewLayout) (base_width base_height : Nat)
    (cx cy : Int) (x y : Int) : Option Int :=
  match fdiv base_width base_height with
  | none => none
  | some ratio =>
    match gridBounds multiviewLayout ratio cx cy with
    | none => none
    | some b =>
      if x < b.minX ∨ x > b.maxX ∨ y < b.minY ∨ y > b.maxY then some (-1)
      else cellIndex multiviewLayout b x y

/-! ## The mouse handlers -/

/-- Modelled from the spec: the main window class `OBSBasic` is declared
outside this file; the handlers read its current scene, its program source
and its preview/program (studio) mode, and the list records the transitions
started by `TransitionToScene`. -/
structure OBSBasic where
  currentScene : Option Nat
  programSource : Option Nat
  previewProgramMode : Bool
  transitions : List Nat
  deriving DecidableEq, Repr

/-- Modelled from the spec: `OBSBasic::SetCurrentScene(scene, false)` is
defined outside this file; it makes `scene` the current scene. -/
def OBSBasic.SetCurrentScene (main : OBSBasic) (scene : Nat) : OBSBasic :=
  { main with currentScene := some scene }

/-- Modelled from the spec: `OBSBasic::TransitionToScene(scene)` is defined
outside this file; it starts a transition to `scene`. -/
def OBSBasic.TransitionToScene (main : OBSBasic) (scene : Nat) : OBSBasic :=
  { main with transitions := main.transitions ++ [scene] }

/-- The two `BasicWindow` flags of the global configuration the handlers
read. -/
structure GlobalConfig where
  MultiviewMouseSwitch : Bool
  TransitionOnDoubleClick : Bool
  deriving DecidableEq, Repr

/-- The button of a `QMouseEvent`. -/
inductive MouseButton where
  | LeftButton
  | RightButton
  | OtherButton
  deriving DecidableEq, Repr

/-- A `QMouseEvent`: its button and its position. -/
structure QMouseEvent where
  button : MouseButton
  x : Int
  y : Int
  deriving DecidableEq, Repr

/-- What `getSourceByPosition` reads from its surroundings: the static
`multiviewLayout`, the base canvas size and the size of the active window. -/
structure HitContext where
  multiviewLayout : MultiviewLayout
  base_width : Nat
  base_height : Nat
  cx : Int
  cy : Int
  deriving DecidableEq, Repr

/-- `OBSGetStrongRef(weak)`: the source, when the weak reference is set and
the source still exists. -/
def OBSGetStrongRef (alive : Nat → Bool) (weak : Option Nat) : Option Nat :=
  match weak with
  | none => none
  | some src => if alive src then some src else none

/-- The array read `multiviewScenes[pos]` for an `int pos`; no value when
`pos` is outside the eight elements. -/
def multiviewScenesAt (multiviewScenes : Fin 8 → Option Nat) (pos : Int) : Option (Option Nat) :=
  if h : 0 ≤ pos ∧ pos < 8 then some (multiviewScenes ⟨pos.toNat, by omega⟩) else none

/-- `OBSProjector::mousePressEvent`, as it acts on the main window. The
pop-up menu of the right button acts on the projector only. -/
def mousePressEvent (config : GlobalConfig) (ctx : HitContext) (alive : Nat → Bool)
    (p : OBSProjector) (main : OBSBasic) (event : QMouseEvent) : Option OBSBasic :=
  if event.button = MouseButton.LeftButton then
    if !config.MultiviewMouseSwitch then some main
    else
      match getSourceByPosition ctx.multiviewLayout ctx.base_width ctx.base_height
          ctx.cx ctx.cy event.x event.y with
      | none => none
      | some pos =>
        if pos < 0 then some main
        else
          match multiviewScenesAt p.multiviewScenes pos with
          | none => none
          | some weak =>
            match OBSGetStrongRef alive weak with
            | none => some main
            | some src =>
              if main.currentScene ≠ some src then some (main.SetCurrentScene src)
              else some main
  else some main

/-- `OBSProjector::mouseDoubleClickEvent`, as it acts on the main window. -/
def mouseDoubleClickEvent (config : GlobalConfig) (ctx : HitContext) (alive : Nat → Bool)
    (p : OBSProjector) (main : OBSBasic) (event : QMouseEvent) : Option OBSBasic :=
  if !config.MultiviewMouseSwitch then some main
  else if !config.TransitionOnDoubleClick then some main
  else if !main.previewProgramMode then some main
  else if event.button = MouseButton.LeftButton then
    match getSourceByPosition ctx.multiviewLayout ctx.base_width ctx.base_height
        ctx.cx ctx.cy event.x event.y with
    | none => none
    | some pos =>
      if pos < 0 then some main
      else
        match multiviewScenesAt p.multiviewScenes pos with
        | none => none
        | some weak =>
          match OBSGetStrongRef alive weak with
          | none => some main
          | some src =>
            if main.programSource ≠ some src then some (main.TransitionToScene src)
            else some main
  else some main

/-! ## Construction, destruction and the two registries -/

/-- The statics of the file. -/
structure Statics where
  windowedProjectors : List Nat
  multiviewProjectors : List Nat
  updatingMultiview : Bool
  multiviewLayout : MultiviewLayout

/-- The projectors that exist, by address, the statics, and the showing
calls made so far. -/
structure World where
  heap : Nat → Option OBSProjector
  statics : Statics
  calls : List ShowingCall

/-- The state before any projector was created. -/
def World.initial (multiviewLayout : MultiviewLayout) : World :=
  { heap := fun _ => none
    statics :=
      { windowedProjectors := [], multiviewProjectors := [],
        updatingMultiview := false, multiviewLayout := multiviewLayout }
    calls := [] }

/-- `OBSProjector::UpdateProjectorTitle(name)`. -/
def UpdateProjectorTitle (Str : String → String) (p : OBSProjector) (name : String) :
    OBSProjector :=
  let title :=
    match p.type with
    | .Scene => Str "SceneWindow" ++ " - " ++ name
    | .Source => Str "SourceWindow" ++ " - " ++ name
    | _ => name
  { p with projectorTitle := name, windowTitle := title }

/-- The constructor `OBSProjector::OBSProjector(widget, source_, monitor,
title, type_)` for the new object at address `this`: the parts that touch the
fields, the registries and the showing counts. -/
def construct (env : Frontend) (this : Nat) (source_ : Option Nat) (monitor : Int)
    (title : String) (type_ : ProjectorType) (w : World) : World :=
  let p0 : OBSProjector :=
    { source := source_, savedMonitor := monitor, isWindow := decide (monitor < 0),
      type := type_, projectorTitle := title, windowTitle := "", ready := false,
      multiviewScenes := fun _ => none, multiviewLabels := fun _ => none }
  let p1 := if p0.isWindow then UpdateProjectorTitle env.Str p0 p0.projectorTitle else p0
  let windowed :=
    if p0.isWindow then w.statics.windowedProjectors ++ [this]
    else w.statics.windowedProjectors
  let r : UpdateResult :=
    if type_ = ProjectorType.Multiview then UpdateMultiview env p1
    else { projector := p1, calls := [], multiviewLayout := w.statics.multiviewLayout }
  let multiview :=
    if type_ = ProjectorType.Multiview then w.statics.multiviewProjectors ++ [this]
    else w.statics.multiviewProjectors
  let sourceCalls :=
    match source_ with
    | some src => [ShowingCall.inc src]
    | none => []
  { heap := Function.update w.heap this (some { r.projector with ready := true })
    statics :=
      { windowedProjectors := windowed, multiviewProjectors := multiview,
        updatingMultiview := w.statics.updatingMultiview,
        multiviewLayout := r.multiviewLayout }
    calls := w.calls ++ r.calls ++ sourceCalls }

/-- The loop of the destructor over `multiviewScenes`: one
`obs_source_dec_showing` for every slot whose scene still exists. -/
def destroy.sceneCalls (alive : Nat → Bool) (p : OBSProjector) : List ShowingCall :=
  (List.finRange 8).filterMap fun k =>
    match OBSGetStrongRef alive (p.multiviewScenes k) with
    | some src => some (ShowingCall.dec src)
    | none => none

/-- The destructor `OBSProjector::~OBSProjector()` of the object at address
`this`; no value when no projector exists there. -/
def destroy (alive : Nat → Bool) (this : Nat) (w : World) : Option World :=
  match w.heap this with
  | none => none
  | some p =>
    let isMultiview := decide (p.type = ProjectorType.Multiview)
    let sourceCalls :=
      match p.source with
      | some src => [ShowingCall.dec src]
      | none => []
    let sceneCalls := if isMultiview then destroy.sceneCalls alive p else []
    let multiview :=
      if p.type = ProjectorType.Multiview then
        w.statics.multiviewProjectors.filter (fun q => q != this)
      else w.statics.multiviewProjectors
    let windowed :=
      if p.isWindow then w.statics.windowedProjectors.filter (fun q => q != this)
      else w.statics.windowedProjectors
    some
      { heap := Function.update w.heap this none
        statics := { w.statics with windowedProjectors := windowed, multiviewProjectors := multiview }
        calls := w.calls ++ sourceCalls ++ sceneCalls }

/-- The loop `for (auto &projector : multiviewProjectors)
projector->UpdateMultiview()`; no value when an address of the list holds no
projector. -/
def UpdateMultiviewProjectors.loop (env : Frontend) : List Nat → World → Option World
  | [], w => some w
  | projector :: rest, w =>
    match w.heap projector with
    | none => none
    | some p =>
      let r := UpdateMultiview env p
      UpdateMultiviewProjectors.loop env rest
        { heap := Function.update w.heap projector (some r.projector)
          statics := { w.statics with multiviewLayout := r.multiviewLayout }
          calls := w.calls ++ r.calls }

/-- `OBSProjector::UpdateMultiviewProjectors()`. -/
def UpdateMultiviewProjectors (env : Frontend) (w : World) : Option World :=
  let w1 := { w with statics := { w.statics with updatingMultiview := true } }
  match UpdateMultiviewProjectors.loop env w1.statics.multiviewProjectors w1 with
  | none => none
  | some w2 => some { w2 with statics := { w2.statics with updatingMultiview := false } }

/-- The loop of `RenameProjector` over `windowedProjectors`; no value when an
address of the list holds no projector. -/
def RenameProjector.loop (Str : String → String) (oldName newName : String) :
    List Nat → World → Option World
  | [], w => some w
  | projector :: rest, w =>
    match w.heap projector with
    | none => none
    | some p =>
      if p.projectorTitle = oldName then
        RenameProjector.loop Str oldName newName rest
          { w with
            heap := Function.update w.heap projector (some (UpdateProjectorTitle Str p newName)) }
      else RenameProjector.loop Str oldName newName rest w

/-- `OBSProjector::RenameProjector(oldName, newName)`. -/
def RenameProjector (Str : String → String) (oldName newName : String) (w : World) :
    Option World :=
  RenameProjector.loop Str oldName newName w.statics.windowedProjectors w

/-- The number of `obs_source_inc_showing` calls on `src` in a log. -/
def incCount (calls : List ShowingCall) (src : Nat) : Nat :=
  calls.count (ShowingCall.inc src)

/-- The number of `obs_source_dec_showing` calls on `src` in a log. -/
def decCount (calls : List ShowingCall) (src : Nat) : Nat :=
  calls.count (ShowingCall.dec src)

/-- The change of the showing count of `src` that a log of calls makes. -/
def showingChange (calls : List ShowingCall) (src : Nat) : Int :=
  (incCount calls src : Int) - (decCount calls src : Int)

/-- Modelled from the spec: `obs_source_inc_showing` is defined in the core
library, outside this file; it raises the showing count of its source, and a
null source has no showing count to raise. -/
def obs_source_inc_showing (source : Option Nat) : List ShowingCall :=
  match source with
  | some src => [ShowingCall.inc src]
  | none => []

/-- Modelled from the spec: `obs_source_dec_showing` is defined in the core
library, outside this file; it lowers the showing count of its source, and a
null source has no showing count to lower. -/
def obs_source_dec_showing (source : Option Nat) : List ShowingCall :=
  match source with
  | some src => [ShowingCall.dec src]
  | none => []

/-- What one call of `OBSRender` does: the projector after the frame, the
showing calls made, whether a frame was drawn, the target size of the region
and the source given to `obs_source_video_render` (`none` for
`obs_render_main_texture`). -/
structure Frame where
  window : OBSProjector
  calls : List ShowingCall
  drawn : Bool
  targetCX : Nat
  targetCY : Nat
  rendered : Option Nat

/-- `OBSProjector::OBSRender(data, cx, cy)` for the projector `window`.
`sourceSize` gives `obs_source_get_width` and `obs_source_get_height`; the
scaling of the region to the display size `cx` x `cy` is left out. The
function assigns to its local `source` only, so the projector is returned as
it was. -/
def OBSRender (main : OBSBasic) (base_width base_height : Nat) (sourceSize : Nat → Nat × Nat)
    (window : OBSProjector) : Frame :=
  if !window.ready then
    { window := window, calls := [], drawn := false, targetCX := 0, targetCY := 0,
      rendered := none }
  else
    let source := window.source
    let target : Nat × Nat :=
      match source with
      | some src => (max (sourceSize src).1 1, max (sourceSize src).2 1)
      | none => (base_width, base_height)
    if window.type = ProjectorType.Preview ∧ main.previewProgramMode = true then
      let curSource := main.currentScene
      if source ≠ curSource then
        { window := window
          calls := obs_source_dec_showing source ++ obs_source_inc_showing curSource
          drawn := true, targetCX := target.1, targetCY := target.2
          rendered := curSource }
      else
        { window := window, calls := [], drawn := true, targetCX := target.1,
          targetCY := target.2, rendered := source }
    else
      { window := window, calls := [], drawn := true, targetCX := target.1,
        targetCY := target.2, rendered := source }

/-- `labelOffset(label, cx)` for a label of width `w = obs_source_get_width(label)`;
`w` and `cx` are `uint32_t`, and so are the product converted back and the
difference returned. -/
def labelOffset (multiviewLayout : MultiviewLayout) (w cx : Nat) : Nat :=
  let n : Nat :=
    match multiviewLayout with
    | _ => 4
  let w1 : Nat := (toInt ((w : ℚ) * (1 / (n : ℚ)))).toNat % 2 ^ 32
  ((((cx / 2 : Nat) : Int) - (w1 : Int)) % (2 ^ 32 : Int)).toNat

/-- The x coordinate at which `OBSRenderMultiview` draws the label of cell
`i` (lines 514-518): `sourceX + offset` with
`offset = labelOffset(label, quarterCX)`, the cell width converted to
`uint32_t`. -/
def sceneLabelX (multiviewLayout : MultiviewLayout) (g : Geometry) (i : Nat) (w : Nat) : ℚ :=
  let offset := labelOffset multiviewLayout w ((toInt g.quarterCX).toNat % 2 ^ 32)
  (calcBaseSource multiviewLayout g i).sourceX + (offset : ℚ)

/-- The x coordinate at which `OBSRenderMultiview` draws the label of the
preview or program panel: `labelX` of `calcPreviewProgram` with
`offset = labelOffset(label, halfCX)`. -/
def panelLabelX (multiviewLayout : MultiviewLayout) (g : Geometry) (program : Bool) (w : Nat) :
    ℚ :=
  let offset := labelOffset multiviewLayout w ((toInt g.halfCX).toNat % 2 ^ 32)
  (calcPreviewProgram multiviewLayout g offset program).labelX

/-! ## Concrete inputs -/

/-- A multiview projector whose eight slots hold the scenes 1 to 8. -/
def exampleProjector : OBSProjector :=
  { source := none, savedMonitor := -1, isWindow := true, type := ProjectorType.Multiview,
    projectorTitle := "Multiview", windowTitle := "Multiview", ready := true,
    multiviewScenes := fun k => some (k.val + 1), multiviewLabels := fun _ => none }

/-- A projector window resized to 1283 x 800 pixels over a 1920 x 1080
canvas, in the default layout. -/
def exampleContext : HitContext :=
  { multiviewLayout := MultiviewLayout.HORIZONTAL_TOP_8_SCENES,
    base_width := 1920, base_height := 1080, cx := 1283, cy := 800 }

/-- A main window in studio mode whose current scene and program source are
scene 1. -/
def exampleMain : OBSBasic :=
  { currentScene := some 1, programSource := some 1, previewProgramMode := true,
    transitions := [] }

/-- A frontend with three scenes, the second one hidden from the multiview. -/
def exampleFrontend : Frontend :=
  { base_width := 1920, base_height := 1080,
    scenes := [⟨10, "A", none⟩, ⟨11, "B", some false⟩, ⟨12, "C", some true⟩],
    Str := fun s => s, layout := MultiviewLayout.HORIZONTAL_TOP_8_SCENES }

/-- A preview projector as the main window opens it: no source of its own. -/
def examplePreviewProjector : OBSProjector :=
  { source := none, savedMonitor := -1, isWindow := true, type := ProjectorType.Preview,
    projectorTitle := "Preview", windowTitle := "Preview", ready := true,
    multiviewScenes := fun _ => none, multiviewLabels := fun _ => none }

/-- The world after a windowed multiview projector was constructed at
address 1 over the three scenes of `exampleFrontend`. -/
def exampleWorld : World :=
  construct exampleFrontend 1 none (-1) "Multiview" ProjectorType.Multiview
    (World.initial MultiviewLayout.HORIZONTAL_TOP_8_SCENES)

/-! ## The scene loop -/

theorem visibleScenes_cons (s : FrontendScene) (l : List FrontendScene) :
    visibleScenes (s :: l) =
      if obs_data_get_bool_default s.show_in_multiview true then s :: visibleScenes l
      else visibleScenes l := by
  unfold visibleScenes
  by_cases h : obs_data_get_bool_default s.show_in_multiview true = true
  · simp [List.filter_cons, h]
  · simp [List.filter_cons, h]

/-- Slots below the running index are kept, the others receive the visible
scenes still to come, in order. -/
theorem loop_multiviewScenes (h : Nat) (l : List FrontendScene) (st : LoopState)
    (hnone : ∀ k : Fin 8, st.curIdx ≤ k.val → st.multiviewScenes k = none)
    (k : Fin 8) :
    (UpdateMultiview.loop h l st).multiviewScenes k =
      if k.val < st.curIdx then st.multiviewScenes k
      else ((visibleScenes l)[k.val - st.curIdx]?).map (fun s => s.id) := by
  induction l generalizing st with
  | nil =>
    simp only [UpdateMultiview.loop, visibleScenes, List.filter_nil]
    split
    · rfl
    · simpa using hnone k (by omega)
  | cons s rest ih =>
    rw [UpdateMultiview.loop]
    by_cases hc : st.curIdx < 8
    · rw [dif_pos hc, visibleScenes_cons]
      by_cases hv : obs_data_get_bool_default s.show_in_multiview true = true
      · simp only [hv, Bool.not_true, Bool.false_eq_true, if_false, if_true]
        rw [ih]
        · simp only
          by_cases hk : k.val < st.curIdx
          · have hne : k ≠ ⟨st.curIdx, hc⟩ := by
              intro he; rw [he] at hk; simp at hk
            simp [hk, Nat.lt_succ_of_lt hk, Function.update_noteq hne]
          · by_cases hk2 : k.val = st.curIdx
            · have he : k = ⟨st.curIdx, hc⟩ := Fin.ext hk2
              subst he
              simp
            · have h3 : ¬ k.val < st.curIdx + 1 := by omega
              have h4 : k.val - st.curIdx = (k.val - (st.curIdx + 1)) + 1 := by omega
              simp only [hk, h3, if_false]
              rw [h4, List.getElem?_cons_succ]
        · intro j hj
          have hne : j ≠ ⟨st.curIdx, hc⟩ := by
            intro he; rw [he] at hj; simp at hj
          simp only at hj
          show Function.update st.multiviewScenes ⟨st.curIdx, hc⟩ (some s.id) j = none
          rw [Function.update_noteq hne]
          exact hnone j (by omega)
      · simp only [Bool.not_eq_true] at hv
        simp only [hv, Bool.not_false, if_true, Bool.false_eq_true, if_false]
        exact ih st hnone
    · rw [dif_neg hc]
      have hk : k.val < st.curIdx := by have := k.isLt; omega
      simp [hk]

/-- Labels below the running index (and the two panel labels) are kept, the
others receive the labels of the visible scenes still to come. -/
theorem loop_multiviewLabels (h : Nat) (l : List FrontendScene) (st : LoopState)
    (hnone : ∀ j : Fin 10, st.curIdx + 2 ≤ j.val → st.multiviewLabels j = none)
    (j : Fin 10) :
    (UpdateMultiview.loop h l st).multiviewLabels j =
      if j.val < st.curIdx + 2 then st.multiviewLabels j
      else ((visibleScenes l)[j.val - 2 - st.curIdx]?).map
        (fun s => CreateLabel (toString (j.val - 2 + 1) ++ " - " ++ s.name) (h / 3)) := by
  induction l generalizing st with
  | nil =>
    simp only [UpdateMultiview.loop, visibleScenes, List.filter_nil]
    split
    · rfl
    · simpa using hnone j (by omega)
  | cons s rest ih =>
    rw [UpdateMultiview.loop]
    by_cases hc : st.curIdx < 8
    · have hlt : st.curIdx + 2 < 10 := by omega
      rw [dif_pos hc, visibleScenes_cons]
      by_cases hv : obs_data_get_bool_default s.show_in_multiview true = true
      · simp only [hv, Bool.not_true, Bool.false_eq_true, if_false, if_true]
        rw [ih]
        · simp only
          by_cases hk : j.val < st.curIdx + 2
          · have hne : j ≠ ⟨st.curIdx + 2, hlt⟩ := by
              intro he; rw [he] at hk; simp at hk
            have hk1 : j.val < st.curIdx + 1 + 2 := by omega
            simp [hk, hk1, Function.update_noteq hne]
          · by_cases hk2 : j.val = st.curIdx + 2
            · have he : j = ⟨st.curIdx + 2, hlt⟩ := Fin.ext hk2
              have h5 : j.val - 2 - st.curIdx = 0 := by omega
              have h6 : j.val - 2 + 1 = st.curIdx + 1 := by omega
              have h7 : j.val < st.curIdx + 1 + 2 := by omega
              simp only [hk, h7, if_true, if_false, h5, h6, List.getElem?_cons_zero, Option.map_some']
              rw [he, Function.update_same]
            · have h3 : ¬ j.val < st.curIdx + 1 + 2 := by omega
              have h4 : j.val - 2 - st.curIdx = (j.val - 2 - (st.curIdx + 1)) + 1 := by omega
              simp only [hk, h3, if_false]
              rw [h4, List.getElem?_cons_succ]
        · intro i hi
          have hne : i ≠ ⟨st.curIdx + 2, hlt⟩ := by
            intro he; rw [he] at hi; simp at hi
          simp only at hi
          show Function.update st.multiviewLabels ⟨st.curIdx + 2, _⟩ _ i = none
          rw [Function.update_noteq hne]
          exact hnone i (by omega)
      · simp only [Bool.not_eq_true] at hv
        simp only [hv, Bool.not_false, if_true, Bool.false_eq_true, if_false]
        exact ih st hnone
    · rw [dif_neg hc]
      have hk : j.val < st.curIdx + 2 := by have := j.isLt; omega
      simp [hk]

/-- Every slot of `UpdateMultiview` in closed form. -/
theorem UpdateMultiview_multiviewScenes (env : Frontend) (p : OBSProjector) (k : Fin 8) :
    (UpdateMultiview env p).projector.multiviewScenes k =
      ((visibleScenes env.scenes)[k.val]?).map (fun s => s.id) := by
  have h := loop_multiviewScenes env.base_height env.scenes
    { curIdx := 0, multiviewScenes := fun _ => none,
      multiviewLabels :=
        Function.update (Function.update (fun _ => none) 0
          (some (CreateLabel (env.Str "StudioMode.Preview") (env.base_height / 2)))) 1
          (some (CreateLabel (env.Str "StudioMode.Program") (env.base_height / 2))),
      calls := [] } (fun _ _ => rfl) k
  simpa [UpdateMultiview] using h

/-- Every label of `UpdateMultiview` in closed form. -/
theorem UpdateMultiview_multiviewLabels (env : Frontend) (p : OBSProjector) (j : Fin 10) :
    (UpdateMultiview env p).projector.multiviewLabels j =
      if j.val = 0 then some (CreateLabel (env.Str "StudioMode.Preview") (env.base_height / 2))
      else if j.val = 1 then
        some (CreateLabel (env.Str "StudioMode.Program") (env.base_height / 2))
      else ((visibleScenes env.scenes)[j.val - 2]?).map
        (fun s => CreateLabel (toString (j.val - 2 + 1) ++ " - " ++ s.name)
          (env.base_height / 3)) := by
  have h := loop_multiviewLabels env.base_height env.scenes
    { curIdx := 0, multiviewScenes := fun _ => none,
      multiviewLabels :=
        Function.update (Function.update (fun _ => none) 0
          (some (CreateLabel (env.Str "StudioMode.Preview") (env.base_height / 2)))) 1
          (some (CreateLabel (env.Str "StudioMode.Program") (env.base_height / 2))),
      calls := [] }
    (by
      intro i hi
      simp only at hi
      have h0 : i ≠ 0 := by intro he; rw [he] at hi; simp at hi
      have h1 : i ≠ 1 := by intro he; rw [he] at hi; simp at hi
      simp [Function.update_noteq h1, Function.update_noteq h0]) j
  simp only [UpdateMultiview]
  rw [h]
  simp only [Nat.zero_add, Nat.sub_zero]
  by_cases h0 : j.val = 0
  · have he : j = 0 := Fin.ext h0
    subst he
    simp
  · by_cases h1 : j.val = 1
    · have he : j = 1 := Fin.ext h1
      subst he
      simp
    · have h2 : ¬ j.val < 2 := by omega
      simp [h0, h1, h2]

/-- C1: after `UpdateMultiview`, slot `k` holds the `(k+1)`-th scene of the
frontend list that is shown in the multiview (a scene without the setting
counts as shown) whenever there is one, every other slot is empty, and a slot
never holds a scene that is hidden. -/
theorem C1_UpdateMultiview_slots (env : Frontend) (p : OBSProjector) :
    (∀ k : Fin 8, ∀ hk : k.val < (visibleScenes env.scenes).length,
        (UpdateMultiview env p).projector.multiviewScenes k =
          some ((visibleScenes env.scenes)[k.val]).id) ∧
    (∀ k : Fin 8, (visibleScenes env.scenes).length ≤ k.val →
        (UpdateMultiview env p).projector.multiviewScenes k = none) ∧
    (∀ k : Fin 8, ∀ src : Nat,
        (UpdateMultiview env p).projector.multiviewScenes k = some src →
          ∃ s ∈ env.scenes, s.id = src ∧ s.show_in_multiview ≠ some false) := by
  refine ⟨?_, ?_, ?_⟩
  · intro k hk
    rw [UpdateMultiview_multiviewScenes, List.getElem?_eq_getElem hk]
    rfl
  · intro k hk
    rw [UpdateMultiview_multiviewScenes, List.getElem?_eq_none hk]
    rfl
  · intro k src h
    rw [UpdateMultiview_multiviewScenes] at h
    by_cases hk : k.val < (visibleScenes env.scenes).length
    · rw [List.getElem?_eq_getElem hk] at h
      have hmem : (visibleScenes env.scenes)[k.val] ∈ visibleScenes env.scenes :=
        List.getElem_mem hk
      unfold visibleScenes at hmem
      rw [List.mem_filter] at hmem
      refine ⟨_, hmem.1, by simpa using h, ?_⟩
      intro hf
      have h2 := hmem.2
      rw [hf] at h2
      simp [obs_data_get_bool_default] at h2
    · rw [List.getElem?_eq_none (by omega)] at h
      simp at h

/-! ## The hit-test in a window of the canvas size -/

theorem calcBaseSource_vertical_sourceY (layout : MultiviewLayout)
    (hl : layout = .VERTICAL_LEFT_8_SCENES ∨ layout = .VERTICAL_RIGHT_8_SCENES)
    (g : Geometry) (i : Nat) :
    (calcBaseSource layout g i).sourceY = ((i / 2 : Nat) : ℚ) * g.quarterCY := by
  rcases hl with rfl | rfl <;>
  · simp only [calcBaseSource]
    split <;> rfl

theorem calcBaseSource_left_sourceX (g : Geometry) (i : Nat) :
    (calcBaseSource .VERTICAL_LEFT_8_SCENES g i).sourceX =
      g.halfCX + ((i % 2 : Nat) : ℚ) * g.quarterCX := by
  simp only [calcBaseSource]
  have h : i % 2 = 0 ∨ i % 2 = 1 := by omega
  rcases h with h | h <;> simp [h]

theorem calcBaseSource_right_sourceX (g : Geometry) (i : Nat) :
    (calcBaseSource .VERTICAL_RIGHT_8_SCENES g i).sourceX =
      ((i % 2 : Nat) : ℚ) * g.quarterCX := by
  simp only [calcBaseSource]
  have h : i % 2 = 0 ∨ i % 2 = 1 := by omega
  rcases h with h | h <;> simp [h]

theorem calcBaseSource_horizontal_sourceX (layout : MultiviewLayout)
    (hl : layout ≠ .VERTICAL_LEFT_8_SCENES ∧ layout ≠ .VERTICAL_RIGHT_8_SCENES)
    (g : Geometry) (i : Nat) (hi : i < 8) :
    (calcBaseSource layout g i).sourceX = ((i % 4 : Nat) : ℚ) * g.quarterCX := by
  have e1 : i < 4 → i % 4 = i := fun h => Nat.mod_eq_of_lt h
  have e2 : ¬ i < 4 → i % 4 = i - 4 := fun h => by omega
  cases layout <;> simp only [calcBaseSource] <;> first
    | exact absurd rfl hl.1
    | exact absurd rfl hl.2
    | (split
       · rename_i h; rw [e1 h]
       · rename_i h; rw [e2 h])

theorem calcBaseSource_bottom_sourceY (g : Geometry) (i : Nat) (hi : i < 8) :
    (calcBaseSource .HORIZONTAL_BOTTOM_8_SCENES g i).sourceY =
      ((i / 4 : Nat) : ℚ) * g.quarterCY := by
  simp only [calcBaseSource]
  split
  · rename_i h
    have : i / 4 = 0 := by omega
    simp [this]
  · rename_i h
    have : i / 4 = 1 := by omega
    simp [this]

theorem calcBaseSource_top_sourceY (layout : MultiviewLayout)
    (hl : layout = .HORIZONTAL_TOP_8_SCENES ∨ layout = .unlisted)
    (g : Geometry) (i : Nat) (hi : i < 8) :
    (calcBaseSource layout g i).sourceY = g.halfCY + ((i / 4 : Nat) : ℚ) * g.quarterCY := by
  rcases hl with rfl | rfl <;>
  · simp only [calcBaseSource]
    split
    · rename_i h
      have : i / 4 = 0 := by omega
      simp [this]
    · rename_i h
      have : i / 4 = 1 := by omega
      simp [this]

/-- The left-button dispatch of `mousePressEvent` on the presses for which the
hit-test is defined and names -1 or one of the eight slots: the current scene
becomes the live scene of the slot hit when the switch flag is set and that
scene is not current already, and nothing changes otherwise. -/
theorem mousePressEvent_dispatch (config : GlobalConfig) (ctx : HitContext) (alive : Nat → Bool)
    (p : OBSProjector) (main : OBSBasic) (x y pos : Int)
    (hhit : getSourceByPosition ctx.multiviewLayout ctx.base_width ctx.base_height
      ctx.cx ctx.cy x y = some pos)
    (hlt : pos < 8) :
    ∃ main1, mousePressEvent config ctx alive p main ⟨MouseButton.LeftButton, x, y⟩ = some main1 ∧
      (main1.currentScene ≠ main.currentScene ↔
        (config.MultiviewMouseSwitch = true ∧ 0 ≤ pos ∧
          ∃ src, multiviewScenesAt p.multiviewScenes pos = some (some src) ∧
            alive src = true ∧ main.currentScene ≠ some src)) ∧
      (∀ src, config.MultiviewMouseSwitch = true → 0 ≤ pos →
        multiviewScenesAt p.multiviewScenes pos = some (some src) → alive src = true →
        main.currentScene ≠ some src → main1 = main.SetCurrentScene src) ∧
      (main1.currentScene = main.currentScene → main1 = main) := by
  unfold mousePressEvent
  simp only [if_true]
  cases hf : config.MultiviewMouseSwitch
  · exact ⟨main, by simp⟩
  · simp only [Bool.not_true, Bool.false_eq_true, if_false, hhit]
    by_cases h0 : pos < 0
    · refine ⟨main, by simp [h0], ?_, ?_, ?_⟩
      · simp; intro h; omega
      · intro src _ h; omega
      · intro _; rfl
    · have hin : 0 ≤ pos ∧ pos < 8 := ⟨by omega, hlt⟩
      simp only [h0, if_false, multiviewScenesAt, dif_pos hin]
      cases hw : p.multiviewScenes ⟨pos.toNat, by omega⟩ with
      | none =>
        refine ⟨main, by simp [OBSGetStrongRef], ?_, ?_, ?_⟩
        · simp
        · intro src _ _ h; simp at h
        · intro _; rfl
      | some s =>
        cases ha : alive s
        · refine ⟨main, by simp [OBSGetStrongRef, ha], ?_, ?_, ?_⟩
          · simp only [ne_eq, not_true_eq_false, false_iff]
            rintro ⟨_, _, src, h1, h2, _⟩
            simp only [Option.some.injEq] at h1
            subst h1
            rw [ha] at h2
            exact absurd h2 (by decide)
          · intro src _ _ h1 h2
            simp only [Option.some.injEq] at h1
            subst h1
            rw [ha] at h2
            exact absurd h2 (by decide)
          · intro _; rfl
        · by_cases hc : main.currentScene = some s
          · refine ⟨main, by simp [OBSGetStrongRef, ha, hc], ?_, ?_, ?_⟩
            · simp only [ne_eq, not_true_eq_false, false_iff]
              rintro ⟨_, _, src, h1, _, h3⟩
              simp only [Option.some.injEq] at h1
              subst h1
              exact h3 hc
            · intro src _ _ h1 _ h3
              simp only [Option.some.injEq] at h1
              subst h1
              exact absurd hc h3
            · intro _; rfl
          · refine ⟨main.SetCurrentScene s, by simp [OBSGetStrongRef, ha, hc], ?_, ?_, ?_⟩
            · constructor
              · intro _
                exact ⟨trivial, by omega, s, rfl, ha, hc⟩
              · intro _ h
                apply hc
                rw [← h]
                rfl
            · intro src _ _ h1 _ _
              simp only [Option.some.injEq] at h1
              subst h1
              rfl
            · intro h
              exfalso
              apply hc
              rw [← h]
              rfl

theorem TransitionToScene_transitions_ne (main : OBSBasic) (src : Nat) :
    (main.TransitionToScene src).transitions ≠ main.transitions := by
  intro h
  have := congrArg List.length h
  simp [OBSBasic.TransitionToScene] at this

/-- The dispatch of `mouseDoubleClickEvent` on the clicks for which the
hit-test is defined and names -1 or one of the eight slots: a transition to
the live scene of the slot hit is started when both flags are set, the main
window is in studio mode, the button is the left one and that scene is not
the program source already, and nothing changes otherwise. -/
theorem mouseDoubleClickEvent_dispatch (config : GlobalConfig) (ctx : HitContext)
    (alive : Nat → Bool) (p : OBSProjector) (main : OBSBasic) (event : QMouseEvent) (pos : Int)
    (hhit : getSourceByPosition ctx.multiviewLayout ctx.base_width ctx.base_height
      ctx.cx ctx.cy event.x event.y = some pos)
    (hlt : pos < 8) :
    ∃ main1, mouseDoubleClickEvent config ctx alive p main event = some main1 ∧
      (main1.transitions ≠ main.transitions ↔
        (config.MultiviewMouseSwitch = true ∧ config.TransitionOnDoubleClick = true ∧
          main.previewProgramMode = true ∧ event.button = MouseButton.LeftButton ∧ 0 ≤ pos ∧
          ∃ src, multiviewScenesAt p.multiviewScenes pos = some (some src) ∧
            alive src = true ∧ main.programSource ≠ some src)) ∧
      (∀ src, config.MultiviewMouseSwitch = true → config.TransitionOnDoubleClick = true →
        main.previewProgramMode = true → event.button = MouseButton.LeftButton → 0 ≤ pos →
        multiviewScenesAt p.multiviewScenes pos = some (some src) → alive src = true →
        main.programSource ≠ some src → main1 = main.TransitionToScene src) ∧
      (main1.transitions = main.transitions → main1 = main) := by
  unfold mouseDoubleClickEvent
  cases hf : config.MultiviewMouseSwitch
  · exact ⟨main, by simp⟩
  cases hd : config.TransitionOnDoubleClick
  · exact ⟨main, by simp⟩
  cases hm : main.previewProgramMode
  · exact ⟨main, by simp⟩
  by_cases hb : event.button = MouseButton.LeftButton
  swap
  · exact ⟨main, by simp [hb]⟩
  simp only [Bool.not_true, Bool.false_eq_true, if_false, hhit, hb, if_true]
  by_cases h0 : pos < 0
  · refine ⟨main, by simp [h0], ?_, ?_, ?_⟩
    · simp; intro h; omega
    · intro src _ _ _ _ h; omega
    · intro _; rfl
  · have hin : 0 ≤ pos ∧ pos < 8 := ⟨by omega, hlt⟩
    simp only [h0, if_false, multiviewScenesAt, dif_pos hin]
    cases hw : p.multiviewScenes ⟨pos.toNat, by omega⟩ with
    | none =>
      refine ⟨main, by simp [OBSGetStrongRef], ?_, ?_, ?_⟩
      · simp
      · intro src _ _ _ _ _ h; simp at h
      · intro _; rfl
    | some s =>
      cases ha : alive s
      · refine ⟨main, by simp [OBSGetStrongRef, ha], ?_, ?_, ?_⟩
        · simp only [ne_eq, not_true_eq_false, false_iff]
          rintro ⟨_, _, _, _, _, src, h1, h2, _⟩
          simp only [Option.some.injEq] at h1
          subst h1
          rw [ha] at h2
          exact absurd h2 (by decide)
        · intro src _ _ _ _ _ h1 h2
          simp only [Option.some.injEq] at h1
          subst h1
          rw [ha] at h2
          exact absurd h2 (by decide)
        · intro _; rfl
      · by_cases hc : main.programSource = some s
        · refine ⟨main, by simp [OBSGetStrongRef, ha, hc], ?_, ?_, ?_⟩
          · simp only [ne_eq, not_true_eq_false, false_iff]
            rintro ⟨_, _, _, _, _, src, h1, _, h3⟩
            simp only [Option.some.injEq] at h1
            subst h1
            exact h3 hc
          · intro src _ _ _ _ _ h1 _ h3
            simp only [Option.some.injEq] at h1
            subst h1
            exact absurd hc h3
          · intro _; rfl
        · refine ⟨main.TransitionToScene s, by simp [OBSGetStrongRef, ha, hc], ?_, ?_, ?_⟩
          · constructor
            · intro _
              exact ⟨trivial, trivial, trivial, trivial, by omega, s, rfl, ha, hc⟩
            · intro _
              exact TransitionToScene_transitions_ne main s
          · intro src _ _ _ _ _ h1 _ _
            simp only [Option.some.injEq] at h1
            subst h1
            rfl
          · intro h
            exact absurd h (TransitionToScene_transitions_ne main s)

/-! ## The hit-test past the last cell -/

/-- C3: the hit-test leaves the grid. In a 1283 x 800 window over a
1920 x 1080 canvas (default layout) the bounds are 0..1283 x 400..760, the
cell divisor is 320, not zero, and the click (1281, 700), which lies inside
the window, gets the index 8, for which `multiviewScenes[pos]` has no
element. -/
theorem C3_hit_test_leaves_the_grid :
    gridBounds .HORIZONTAL_TOP_8_SCENES ((1920 : Nat) / (1080 : Nat)) 1283 800 =
      some { minX := 0, maxX := 1283, minY := 400, maxY := 760 } ∧
    Int.tdiv (1283 - 0) 4 = 320 ∧
    getSourceByPosition .HORIZONTAL_TOP_8_SCENES 1920 1080 1283 800 1281 700 = some 8 ∧
    multiviewScenesAt exampleProjector.multiviewScenes 8 = none := by
  decide!

/-- C4: a left press at (1281, 700) in the 1283 x 800 window, with the mouse
switch enabled, reads `multiviewScenes[8]`: the handler has no defined
outcome there, where the claim has the current scene unchanged. -/
theorem C4_press_reads_past_the_slots :
    mousePressEvent ⟨true, true⟩ exampleContext (fun _ => true) exampleProjector exampleMain
      ⟨MouseButton.LeftButton, 1281, 700⟩ = none := by
  decide!

/-- C5: a left double click at (1281, 700) in the 1283 x 800 window, with both
flags enabled and the main window in studio mode, reads `multiviewScenes[8]`:
the handler has no defined outcome there, where the claim has no transition
started. -/
theorem C5_double_click_reads_past_the_slots :
    mouseDoubleClickEvent ⟨true, true⟩ exampleContext (fun _ => true) exampleProjector
      exampleMain ⟨MouseButton.LeftButton, 1281, 700⟩ = none := by
  decide!

/-! ## Labels -/

/-- C9: multiview labels follow the slots. After `UpdateMultiview`, label 0 is
the label of the localised "StudioMode.Preview" and label 1 the label of
"StudioMode.Program"; for every filled scene slot `k`, holding the `(k+1)`-th
shown scene `s`, label `k + 2` has the text `" <k+1> - <name of s> "` with the
decimal 1-based slot number; for every empty scene slot `k`, label `k + 2` is
empty. -/
theorem C9_labels_follow_slots (env : Frontend) (p : OBSProjector) :
    (UpdateMultiview env p).projector.multiviewLabels 0 =
      some (CreateLabel (env.Str "StudioMode.Preview") (env.base_height / 2)) ∧
    (UpdateMultiview env p).projector.multiviewLabels 1 =
      some (CreateLabel (env.Str "StudioMode.Program") (env.base_height / 2)) ∧
    (∀ k : Fin 8, ∀ src : Nat,
      (UpdateMultiview env p).projector.multiviewScenes k = some src →
        ∃ s l, (visibleScenes env.scenes)[k.val]? = some s ∧ s.id = src ∧
          (UpdateMultiview env p).projector.multiviewLabels ⟨k.val + 2, by omega⟩ = some l ∧
          l.text = " " ++ (toString (k.val + 1) ++ " - " ++ s.name) ++ " ") ∧
    (∀ k : Fin 8, (UpdateMultiview env p).projector.multiviewScenes k = none →
      (UpdateMultiview env p).projector.multiviewLabels ⟨k.val + 2, by omega⟩ = none) := by
  refine ⟨?_, ?_, ?_, ?_⟩
  · rw [UpdateMultiview_multiviewLabels]; rfl
  · rw [UpdateMultiview_multiviewLabels]; rfl
  · intro k src h
    rw [UpdateMultiview_multiviewScenes] at h
    cases hv : (visibleScenes env.scenes)[k.val]? with
    | none => rw [hv] at h; simp at h
    | some s =>
      rw [hv] at h
      refine ⟨s, CreateLabel (toString (k.val + 1) ++ " - " ++ s.name) (env.base_height / 3),
        rfl, by simpa using h, ?_, rfl⟩
      rw [UpdateMultiview_multiviewLabels]
      simp [hv]
  · intro k h
    rw [UpdateMultiview_multiviewScenes] at h
    rw [UpdateMultiview_multiviewLabels]
    cases hv : (visibleScenes env.scenes)[k.val]? with
    | none => simp [hv]
    | some s => rw [hv] at h; simp at h

/-- The slots and one label on a list of three scenes whose second scene is
hidden: the third scene is in slot 1 and numbered 2. -/
theorem UpdateMultiview_example :
    (UpdateMultiview exampleFrontend exampleProjector).projector.multiviewScenes 0 = some 10 ∧
    (UpdateMultiview exampleFrontend exampleProjector).projector.multiviewScenes 1 = some 12 ∧
    (UpdateMultiview exampleFrontend exampleProjector).projector.multiviewScenes 2 = none ∧
    ((UpdateMultiview exampleFrontend exampleProjector).projector.multiviewLabels 3).map
      (fun l => l.text) = some " 2 - C " := by
  decide

/-! ## Tiling of the scene half -/

theorem strip_disjoint (q t : ℚ) (m n : Nat) (hmn : m ≠ n) :
    ¬ ((m : ℚ) * q ≤ t ∧ t < (m : ℚ) * q + q ∧ (n : ℚ) * q ≤ t ∧ t < (n : ℚ) * q + q) := by
  rintro ⟨h1, h2, h3, h4⟩
  have hq : 0 < q := by linarith
  rcases Nat.lt_or_gt_of_ne hmn with h | h
  · have : ((m : ℚ) + 1) ≤ (n : ℚ) := by exact_mod_cast h
    have := mul_le_mul_of_nonneg_right this (le_of_lt hq)
    linarith
  · have : ((n : ℚ) + 1) ≤ (m : ℚ) := by exact_mod_cast h
    have := mul_le_mul_of_nonneg_right this (le_of_lt hq)
    linarith

theorem strip_cover (N : Nat) (q t : ℚ) (h0 : 0 ≤ t) (h1 : t < (N : ℚ) * q) :
    ∃ c : Nat, c < N ∧ (c : ℚ) * q ≤ t ∧ t < (c : ℚ) * q + q := by
  induction N with
  | zero => simp at h1; linarith
  | succ n ih =>
    by_cases h : t < (n : ℚ) * q
    · obtain ⟨c, hc, h2, h3⟩ := ih h
      exact ⟨c, by omega, h2, h3⟩
    · refine ⟨n, by omega, by linarith, ?_⟩
      push_cast at h1
      linarith

theorem strip_inside (N : Nat) (q t : ℚ) (c : Nat) (hc : c < N) (h1 : (c : ℚ) * q ≤ t)
    (h2 : t < (c : ℚ) * q + q) : 0 ≤ t ∧ t < (N : ℚ) * q := by
  have hq : 0 < q := by linarith
  have hc0 : (0 : ℚ) ≤ (c : ℚ) := by positivity
  have hcN : (c : ℚ) + 1 ≤ (N : ℚ) := by exact_mod_cast hc
  have := mul_le_mul_of_nonneg_right hcN (le_of_lt hq)
  have := mul_nonneg hc0 (le_of_lt hq)
  constructor <;> linarith

theorem geometry_halves (W H : Nat) :
    (geometry W H).halfCX = 2 * (geometry W H).quarterCX ∧
    (geometry W H).halfCY = 2 * (geometry W H).quarterCY ∧
    (W : ℚ) = 4 * (geometry W H).quarterCX ∧
    (H : ℚ) = 4 * (geometry W H).quarterCY ∧
    (W : ℚ) / 2 = 2 * (geometry W H).quarterCX ∧
    (H : ℚ) / 2 = 2 * (geometry W H).quarterCY := by
  simp only [geometry]
  refine ⟨by ring, by ring, by ring, by ring, by ring, by ring⟩

/-- A grid of `ncol` columns whose cell `i` is at column `i % ncol` and row
`i / ncol`: the cells are pairwise disjoint. -/
theorem grid_disjoint (ncol : Nat) (x0 y0 qx qy : ℚ) (i j : Nat) (hij : i ≠ j)
    (p : ℚ × ℚ) :
    ¬ (inArea (x0 + ((i % ncol : Nat) : ℚ) * qx) (y0 + ((i / ncol : Nat) : ℚ) * qy) qx qy p ∧
       inArea (x0 + ((j % ncol : Nat) : ℚ) * qx) (y0 + ((j / ncol : Nat) : ℚ) * qy) qx qy p) := by
  rintro ⟨⟨a1, a2, a3, a4⟩, ⟨b1, b2, b3, b4⟩⟩
  by_cases hc : i % ncol = j % ncol
  · have hr : i / ncol ≠ j / ncol := by
      intro hr
      apply hij
      rw [← Nat.div_add_mod i ncol, ← Nat.div_add_mod j ncol, hc, hr]
    exact strip_disjoint qy (p.2 - y0) _ _ hr
      ⟨by linarith, by linarith, by linarith, by linarith⟩
  · exact strip_disjoint qx (p.1 - x0) _ _ hc
      ⟨by linarith, by linarith, by linarith, by linarith⟩

/-- The cells of a grid of `ncol` columns and `nrow` rows cover exactly the
rectangle of `ncol` x `nrow` cell sizes. -/
theorem grid_cover (ncol nrow : Nat) (hn : 0 < ncol) (x0 y0 qx qy : ℚ) (p : ℚ × ℚ) :
    (∃ i, i < ncol * nrow ∧
      inArea (x0 + ((i % ncol : Nat) : ℚ) * qx) (y0 + ((i / ncol : Nat) : ℚ) * qy) qx qy p) ↔
    (x0 ≤ p.1 ∧ p.1 < x0 + (ncol : ℚ) * qx ∧ y0 ≤ p.2 ∧ p.2 < y0 + (nrow : ℚ) * qy) := by
  constructor
  · rintro ⟨i, hi, a1, a2, a3, a4⟩
    have hc : i % ncol < ncol := Nat.mod_lt _ hn
    have hr : i / ncol < nrow := by
      apply Nat.div_lt_of_lt_mul
      exact hi
    have hx := strip_inside ncol qx (p.1 - x0) _ hc (by linarith) (by linarith)
    have hy := strip_inside nrow qy (p.2 - y0) _ hr (by linarith) (by linarith)
    exact ⟨by linarith [hx.1], by linarith [hx.2], by linarith [hy.1], by linarith [hy.2]⟩
  · rintro ⟨a1, a2, a3, a4⟩
    obtain ⟨c, hc, c1, c2⟩ := strip_cover ncol qx (p.1 - x0) (by linarith) (by linarith)
    obtain ⟨r, hr, r1, r2⟩ := strip_cover nrow qy (p.2 - y0) (by linarith) (by linarith)
    refine ⟨r * ncol + c, ?_, ?_⟩
    · calc r * ncol + c < r * ncol + ncol := by omega
        _ = (r + 1) * ncol := by ring
        _ ≤ nrow * ncol := Nat.mul_le_mul_right _ hr
        _ = ncol * nrow := by ring
    · have e1 : (r * ncol + c) % ncol = c := by
        rw [Nat.add_comm, Nat.add_mul_mod_self_right, Nat.mod_eq_of_lt hc]
      have e2 : (r * ncol + c) / ncol = r := by
        rw [Nat.add_comm, Nat.add_mul_div_right _ _ hn, Nat.div_eq_of_lt hc, Nat.zero_add]
      rw [e1, e2]
      exact ⟨by linarith, by linarith, by linarith, by linarith⟩

/-- The closed form of `calcBaseSource` on the eight cells: cell `i` is at
column `i % n` and row `i / n` of a grid of `n` columns (4 in the horizontal
layouts, 2 in the vertical ones) whose origin is the corner of the half of
the canvas the layout gives to the scenes. -/
theorem calcBaseSource_grid (layout : MultiviewLayout) (g : Geometry) (i : Nat) (hi : i < 8) :
    (calcBaseSource layout g i).sourceX =
      (match layout with
        | .VERTICAL_LEFT_8_SCENES => g.halfCX
        | _ => 0) +
      ((i % (match layout with
        | .VERTICAL_LEFT_8_SCENES => 2
        | .VERTICAL_RIGHT_8_SCENES => 2
        | _ => 4) : Nat) : ℚ) * g.quarterCX ∧
    (calcBaseSource layout g i).sourceY =
      (match layout with
        | .HORIZONTAL_TOP_8_SCENES => g.halfCY
        | .unlisted => g.halfCY
        | _ => 0) +
      ((i / (match layout with
        | .VERTICAL_LEFT_8_SCENES => 2
        | .VERTICAL_RIGHT_8_SCENES => 2
        | _ => 4) : Nat) : ℚ) * g.quarterCY := by
  cases layout
  · exact ⟨by rw [calcBaseSource_horizontal_sourceX _ ⟨by decide, by decide⟩ g i hi]; simp,
      by rw [calcBaseSource_top_sourceY _ (Or.inl rfl) g i hi]⟩
  · exact ⟨by rw [calcBaseSource_horizontal_sourceX _ ⟨by decide, by decide⟩ g i hi]; simp,
      by rw [calcBaseSource_bottom_sourceY g i hi]; simp⟩
  · exact ⟨by rw [calcBaseSource_left_sourceX], by
      rw [calcBaseSource_vertical_sourceY _ (Or.inl rfl)]; simp⟩
  · exact ⟨by rw [calcBaseSource_right_sourceX]; simp, by
      rw [calcBaseSource_vertical_sourceY _ (Or.inr rfl)]; simp⟩
  · exact ⟨by rw [calcBaseSource_horizontal_sourceX _ ⟨by decide, by decide⟩ g i hi]; simp,
      by rw [calcBaseSource_top_sourceY _ (Or.inr rfl) g i hi]⟩

/-- C6: the eight scene cells tile one half of the canvas. For every layout
and base canvas size `W` x `H`, the cells that `calcBaseSource` places for
`i = 0..7` (origin `(sourceX, sourceY)`, size `W/4` x `H/4`, right and bottom
edges excluded) are pairwise disjoint; their union is the top half of the
canvas for `HORIZONTAL_BOTTOM_8_SCENES`, the right half for
`VERTICAL_LEFT_8_SCENES`, the left half for `VERTICAL_RIGHT_8_SCENES` and the
bottom half for `HORIZONTAL_TOP_8_SCENES` and any other layout value; and the
thumbnail rectangle `(qiX, qiY, qiCX, qiCY)` of a cell is the cell inset by 4
on every side. -/
theorem C6_cells_tile_half (layout : MultiviewLayout) (W H : Nat) :
    (∀ i j : Nat, i < 8 → j < 8 → i ≠ j → ∀ p : ℚ × ℚ,
      ¬ (cellArea layout (geometry W H) i p ∧ cellArea layout (geometry W H) j p)) ∧
    (∀ p : ℚ × ℚ, (∃ i : Nat, i < 8 ∧ cellArea layout (geometry W H) i p) ↔
      match layout with
      | .HORIZONTAL_BOTTOM_8_SCENES =>
        0 ≤ p.1 ∧ p.1 < (W : ℚ) ∧ 0 ≤ p.2 ∧ p.2 < (H : ℚ) / 2
      | .VERTICAL_LEFT_8_SCENES =>
        (W : ℚ) / 2 ≤ p.1 ∧ p.1 < (W : ℚ) ∧ 0 ≤ p.2 ∧ p.2 < (H : ℚ)
      | .VERTICAL_RIGHT_8_SCENES =>
        0 ≤ p.1 ∧ p.1 < (W : ℚ) / 2 ∧ 0 ≤ p.2 ∧ p.2 < (H : ℚ)
      | _ =>
        0 ≤ p.1 ∧ p.1 < (W : ℚ) ∧ (H : ℚ) / 2 ≤ p.2 ∧ p.2 < (H : ℚ)) ∧
    (∀ i : Nat, i < 8 →
      (calcBaseSource layout (geometry W H) i).qiX =
        (calcBaseSource layout (geometry W H) i).sourceX + 4 ∧
      (calcBaseSource layout (geometry W H) i).qiY =
        (calcBaseSource layout (geometry W H) i).sourceY + 4 ∧
      (calcBaseSource layout (geometry W H) i).qiX + (geometry W H).qiCX =
        (calcBaseSource layout (geometry W H) i).sourceX + (W : ℚ) / 4 - 4 ∧
      (calcBaseSource layout (geometry W H) i).qiY + (geometry W H).qiCY =
        (calcBaseSource layout (geometry W H) i).sourceY + (H : ℚ) / 4 - 4) := by
  obtain ⟨g1, g2, g3, g4, g5, g6⟩ := geometry_halves W H
  refine ⟨?_, ?_, ?_⟩
  · intro i j hi hj hij p
    unfold cellArea
    rw [(calcBaseSource_grid layout _ i hi).1, (calcBaseSource_grid layout _ i hi).2,
      (calcBaseSource_grid layout _ j hj).1, (calcBaseSource_grid layout _ j hj).2]
    exact grid_disjoint _ _ _ _ _ i j hij p
  · intro p
    have key : ∀ (ncol nrow : Nat) (x0 y0 : ℚ), 0 < ncol → ncol * nrow = 8 →
        (∀ i, i < 8 → (calcBaseSource layout (geometry W H) i).sourceX =
            x0 + ((i % ncol : Nat) : ℚ) * (geometry W H).quarterCX ∧
          (calcBaseSource layout (geometry W H) i).sourceY =
            y0 + ((i / ncol : Nat) : ℚ) * (geometry W H).quarterCY) →
        ((∃ i : Nat, i < 8 ∧ cellArea layout (geometry W H) i p) ↔
          (x0 ≤ p.1 ∧ p.1 < x0 + (ncol : ℚ) * (geometry W H).quarterCX ∧
            y0 ≤ p.2 ∧ p.2 < y0 + (nrow : ℚ) * (geometry W H).quarterCY)) := by
      intro ncol nrow x0 y0 hn h8 hform
      rw [← grid_cover ncol nrow hn x0 y0 _ _ p, h8]
      constructor
      · rintro ⟨i, hi, h⟩
        refine ⟨i, hi, ?_⟩
        unfold cellArea at h
        rwa [(hform i hi).1, (hform i hi).2] at h
      · rintro ⟨i, hi, h⟩
        refine ⟨i, hi, ?_⟩
        unfold cellArea
        rwa [(hform i hi).1, (hform i hi).2]
    cases layout
    · rw [key 4 2 0 (geometry W H).halfCY (by decide) (by decide)
        (fun i hi => calcBaseSource_grid _ _ i hi)]
      simp only []
      push_cast
      constructor <;> rintro ⟨a1, a2, a3, a4⟩ <;>
        exact ⟨by linarith, by linarith, by linarith, by linarith⟩
    · rw [key 4 2 0 0 (by decide) (by decide) (fun i hi => calcBaseSource_grid _ _ i hi)]
      simp only []
      push_cast
      constructor <;> rintro ⟨a1, a2, a3, a4⟩ <;>
        exact ⟨by linarith, by linarith, by linarith, by linarith⟩
    · rw [key 2 4 (geometry W H).halfCX 0 (by decide) (by decide)
        (fun i hi => calcBaseSource_grid _ _ i hi)]
      simp only []
      push_cast
      constructor <;> rintro ⟨a1, a2, a3, a4⟩ <;>
        exact ⟨by linarith, by linarith, by linarith, by linarith⟩
    · rw [key 2 4 0 0 (by decide) (by decide) (fun i hi => calcBaseSource_grid _ _ i hi)]
      simp only []
      push_cast
      constructor <;> rintro ⟨a1, a2, a3, a4⟩ <;>
        exact ⟨by linarith, by linarith, by linarith, by linarith⟩
    · rw [key 4 2 0 (geometry W H).halfCY (by decide) (by decide)
        (fun i hi => calcBaseSource_grid _ _ i hi)]
      simp only []
      push_cast
      constructor <;> rintro ⟨a1, a2, a3, a4⟩ <;>
        exact ⟨by linarith, by linarith, by linarith, by linarith⟩
  · intro i _
    simp only [calcBaseSource, geometry, thickness, thicknessx2]
    push_cast
    refine ⟨by ring, by ring, by ring, by ring⟩

/-! ## Preview and program panels -/

/-- The origin of a cell lies in the half of the canvas its layout gives to
the scenes, at most one cell size before the far edge of that half. -/
theorem calcBaseSource_range (layout : MultiviewLayout) (W H : Nat) (i : Nat) (hi : i < 8) :
    match layout with
    | .HORIZONTAL_BOTTOM_8_SCENES =>
      (calcBaseSource layout (geometry W H) i).sourceY + (geometry W H).quarterCY
        ≤ (geometry W H).halfCY
    | .VERTICAL_LEFT_8_SCENES =>
      (geometry W H).halfCX ≤ (calcBaseSource layout (geometry W H) i).sourceX
    | .VERTICAL_RIGHT_8_SCENES =>
      (calcBaseSource layout (geometry W H) i).sourceX + (geometry W H).quarterCX
        ≤ (geometry W H).halfCX
    | _ => (geometry W H).halfCY ≤ (calcBaseSource layout (geometry W H) i).sourceY := by
  obtain ⟨g1, g2, g3, g4, g5, g6⟩ := geometry_halves W H
  have hqx : 0 ≤ (geometry W H).quarterCX := by
    have : (0 : ℚ) ≤ (W : ℚ) := by positivity
    linarith
  have hqy : 0 ≤ (geometry W H).quarterCY := by
    have : (0 : ℚ) ≤ (H : ℚ) := by positivity
    linarith
  obtain ⟨hx, hy⟩ := calcBaseSource_grid layout (geometry W H) i hi
  cases layout <;> simp only [] at hx hy ⊢
  · rw [hy]
    have : (0 : ℚ) ≤ ((i / 4 : Nat) : ℚ) * (geometry W H).quarterCY := by positivity
    linarith
  · rw [hy]
    have h1 : ((i / 4 : Nat) : ℚ) ≤ 1 := by
      have : i / 4 ≤ 1 := by omega
      exact_mod_cast this
    have := mul_le_mul_of_nonneg_right h1 hqy
    linarith
  · rw [hx]
    have : (0 : ℚ) ≤ ((i % 2 : Nat) : ℚ) * (geometry W H).quarterCX := by positivity
    linarith
  · rw [hx]
    have h1 : ((i % 2 : Nat) : ℚ) ≤ 1 := by
      have : i % 2 ≤ 1 := by omega
      exact_mod_cast this
    have := mul_le_mul_of_nonneg_right h1 hqx
    linarith
  · rw [hy]
    have : (0 : ℚ) ≤ ((i / 4 : Nat) : ℚ) * (geometry W H).quarterCY := by positivity
    linarith

/-- C7: the preview and program panels are dedicated regions. For every
layout and base canvas size `W` x `H` with `W ≥ 16` and `H ≥ 16`, the preview
and the program rectangle of `calcPreviewProgram` (origin
`(sourceX, sourceY)`, size `(W/2 - 8)` x `(H/2 - 8)`, edges included) lie in
two different quadrants of the canvas, do not meet each other and meet none
of the eight scene cells of `calcBaseSource` (edges included). -/
theorem C7_panels_are_dedicated (layout : MultiviewLayout) (W H : Nat) (hW : 16 ≤ W)
    (hH : 16 ≤ H) (offset1 offset2 : Nat) :
    (∃ u1 v1 u2 v2 : Bool, (u1, v1) ≠ (u2, v2) ∧
      (∀ p, panelArea layout (geometry W H) offset1 false p →
        inClosedArea (if u1 then (W : ℚ) / 2 else 0) (if v1 then (H : ℚ) / 2 else 0)
          ((W : ℚ) / 2) ((H : ℚ) / 2) p) ∧
      (∀ p, panelArea layout (geometry W H) offset2 true p →
        inClosedArea (if u2 then (W : ℚ) / 2 else 0) (if v2 then (H : ℚ) / 2 else 0)
          ((W : ℚ) / 2) ((H : ℚ) / 2) p)) ∧
    (∀ p, ¬ (panelArea layout (geometry W H) offset1 false p ∧
      panelArea layout (geometry W H) offset2 true p)) ∧
    (∀ (program : Bool) (offset i : Nat), i < 8 → ∀ p,
      ¬ (panelArea layout (geometry W H) offset program p ∧
        inClosedArea (calcBaseSource layout (geometry W H) i).sourceX
          (calcBaseSource layout (geometry W H) i).sourceY
          (geometry W H).quarterCX (geometry W H).quarterCY p)) ∧
    (geometry W H).hiCX = (W : ℚ) / 2 - 8 ∧ (geometry W H).hiCY = (H : ℚ) / 2 - 8 ∧
    0 ≤ (geometry W H).hiCX ∧ 0 ≤ (geometry W H).hiCY := by
  have hWq : (16 : ℚ) ≤ (W : ℚ) := by exact_mod_cast hW
  have hHq : (16 : ℚ) ≤ (H : ℚ) := by exact_mod_cast hH
  have e1 : (geometry W H).hiCX = (W : ℚ) / 2 - 8 := by
    simp only [geometry, thicknessx2, thickness]; push_cast; ring
  have e2 : (geometry W H).hiCY = (H : ℚ) / 2 - 8 := by
    simp only [geometry, thicknessx2, thickness]; push_cast; ring
  have e3 : (geometry W H).halfCX = (W : ℚ) / 2 := rfl
  have e4 : (geometry W H).halfCY = (H : ℚ) / 2 := rfl
  have e5 : ((thickness : Nat) : ℚ) = 4 := by simp [thickness]
  refine ⟨?_, ?_, ?_, e1, e2, by linarith, by linarith⟩
  · cases layout
    · refine ⟨false, false, true, false, by decide, ?_, ?_⟩ <;>
      · rintro p ⟨a1, a2, a3, a4⟩
        simp only [calcPreviewProgram, Bool.false_eq_true, if_false, if_true, e1, e2, e3, e4, e5] at a1 a2 a3 a4
        simp only [inClosedArea]
        norm_num
        exact ⟨by linarith, by linarith, by linarith, by linarith⟩
    · refine ⟨false, true, true, true, by decide, ?_, ?_⟩ <;>
      · rintro p ⟨a1, a2, a3, a4⟩
        simp only [calcPreviewProgram, Bool.false_eq_true, if_false, if_true, e1, e2, e3, e4, e5] at a1 a2 a3 a4
        simp only [inClosedArea]
        norm_num
        exact ⟨by linarith, by linarith, by linarith, by linarith⟩
    · refine ⟨false, true, false, false, by decide, ?_, ?_⟩ <;>
      · rintro p ⟨a1, a2, a3, a4⟩
        simp only [calcPreviewProgram, Bool.false_eq_true, if_false, if_true, e1, e2, e3, e4, e5] at a1 a2 a3 a4
        simp only [inClosedArea]
        norm_num
        exact ⟨by linarith, by linarith, by linarith, by linarith⟩
    · refine ⟨true, true, true, false, by decide, ?_, ?_⟩ <;>
      · rintro p ⟨a1, a2, a3, a4⟩
        simp only [calcPreviewProgram, Bool.false_eq_true, if_false, if_true, e1, e2, e3, e4, e5] at a1 a2 a3 a4
        simp only [inClosedArea]
        norm_num
        exact ⟨by linarith, by linarith, by linarith, by linarith⟩
    · refine ⟨false, false, true, false, by decide, ?_, ?_⟩ <;>
      · rintro p ⟨a1, a2, a3, a4⟩
        simp only [calcPreviewProgram, Bool.false_eq_true, if_false, if_true, e1, e2, e3, e4, e5] at a1 a2 a3 a4
        simp only [inClosedArea]
        norm_num
        exact ⟨by linarith, by linarith, by linarith, by linarith⟩
  · rintro p ⟨⟨a1, a2, a3, a4⟩, ⟨b1, b2, b3, b4⟩⟩
    cases layout <;>
    · simp only [calcPreviewProgram, Bool.false_eq_true, if_false, if_true, e1, e2, e3, e4, e5] at a1 a2 a3 a4 b1 b2 b3 b4
      linarith
  · rintro program offset i hi p ⟨⟨a1, a2, a3, a4⟩, ⟨b1, b2, b3, b4⟩⟩
    have hr := calcBaseSource_range layout W H i hi
    cases layout <;> cases program <;>
    · simp only [calcPreviewProgram, Bool.false_eq_true, if_false, if_true, e1, e2, e3, e4, e5] at a1 a2 a3 a4
      simp only [e3, e4] at hr
      linarith

/-- C7, on a 1920 x 1080 canvas in the default layout. -/
theorem C7_panels_are_dedicated_witness :
    16 ≤ 1920 ∧ 16 ≤ 1080 ∧
    ∀ p, ¬ (panelArea .HORIZONTAL_TOP_8_SCENES (geometry 1920 1080) 0 false p ∧
      panelArea .HORIZONTAL_TOP_8_SCENES (geometry 1920 1080) 0 true p) :=
  ⟨by decide, by decide,
    (C7_panels_are_dedicated .HORIZONTAL_TOP_8_SCENES 1920 1080 (by decide) (by decide) 0 0).2.1⟩

/-! ## Registries -/

/-- The fields the registries depend on. -/
theorem UpdateMultiview_fields (env : Frontend) (p : OBSProjector) :
    (UpdateMultiview env p).projector.isWindow = p.isWindow ∧
    (UpdateMultiview env p).projector.type = p.type ∧
    (UpdateMultiview env p).projector.savedMonitor = p.savedMonitor :=
  ⟨rfl, rfl, rfl⟩

theorem UpdateProjectorTitle_fields (Str : String → String) (p : OBSProjector) (name : String) :
    (UpdateProjectorTitle Str p name).isWindow = p.isWindow ∧
    (UpdateProjectorTitle Str p name).type = p.type ∧
    (UpdateProjectorTitle Str p name).savedMonitor = p.savedMonitor :=
  ⟨rfl, rfl, rfl⟩

/-- The scene loop makes one `obs_source_inc_showing` call for every scene it
puts into a slot. -/
theorem loop_calls (h : Nat) (l : List FrontendScene) (st : LoopState) :
    (UpdateMultiview.loop h l st).calls =
      st.calls ++ ((visibleScenes l).take (8 - st.curIdx)).map (fun s => ShowingCall.inc s.id) := by
  induction l generalizing st with
  | nil => simp [UpdateMultiview.loop, visibleScenes]
  | cons s rest ih =>
    rw [UpdateMultiview.loop]
    by_cases hc : st.curIdx < 8
    · rw [dif_pos hc, visibleScenes_cons]
      by_cases hv : obs_data_get_bool_default s.show_in_multiview true = true
      · simp only [hv, Bool.not_true, Bool.false_eq_true, if_false, if_true]
        rw [ih]
        simp only
        have e : 8 - st.curIdx = (8 - (st.curIdx + 1)) + 1 := by omega
        rw [e, List.take_succ_cons, List.map_cons, List.append_assoc]
        rfl
      · simp only [Bool.not_eq_true] at hv
        simp only [hv, Bool.not_false, if_true, Bool.false_eq_true, if_false]
        exact ih st
    · rw [dif_neg hc]
      have e : 8 - st.curIdx = 0 := by omega
      simp [e]

theorem UpdateMultiview_calls (env : Frontend) (p : OBSProjector) :
    (UpdateMultiview env p).calls =
      ((visibleScenes env.scenes).take 8).map (fun s => ShowingCall.inc s.id) := by
  simp only [UpdateMultiview]
  rw [loop_calls]
  simp

theorem finRange_filterMap_getElem {α β : Type} (f : α → β) (n : Nat) (l : List α) :
    (List.finRange n).filterMap (fun k => (l[k.val]?).map f) = (l.take n).map f := by
  induction n generalizing l with
  | zero => simp
  | succ n ih =>
    rw [List.finRange_succ, List.filterMap_cons, List.filterMap_map]
    cases l with
    | nil => simp
    | cons a t =>
      have e : (fun k : Fin (n + 1) => ((a :: t)[k.val]?).map f) ∘ Fin.succ =
          fun k : Fin n => (t[k.val]?).map f := by
        funext k
        simp
      simp only [Fin.val_zero, List.getElem?_cons_zero, Option.map_some', e, ih,
        List.take_succ_cons, List.map_cons]

/-- With every scene alive, the destructor makes one `obs_source_dec_showing`
call for every filled slot of a projector that `UpdateMultiview` filled. -/
theorem sceneCalls_of_slots (scenes : List FrontendScene) (alive : Nat → Bool)
    (halive : ∀ src, alive src = true) (q : OBSProjector)
    (hq : ∀ k : Fin 8, q.multiviewScenes k = ((visibleScenes scenes)[k.val]?).map (fun s => s.id)) :
    destroy.sceneCalls alive q =
      ((visibleScenes scenes).take 8).map (fun s => ShowingCall.dec s.id) := by
  unfold destroy.sceneCalls
  rw [← finRange_filterMap_getElem (fun s : FrontendScene => ShowingCall.dec s.id) 8]
  congr 1
  funext k
  rw [hq]
  cases (visibleScenes scenes)[k.val]? with
  | none => rfl
  | some s => simp [OBSGetStrongRef, halive]

/-- The projector and the showing calls that the construction of a multiview
projector leaves. -/
theorem construct_multiview (env : Frontend) (this : Nat) (source_ : Option Nat)
    (monitor : Int) (title : String) (w : World) :
    ∃ p1 : OBSProjector,
      (construct env this source_ monitor title ProjectorType.Multiview w).heap this = some p1 ∧
      p1.source = source_ ∧ p1.type = ProjectorType.Multiview ∧
      (∀ k : Fin 8, p1.multiviewScenes k =
        ((visibleScenes env.scenes)[k.val]?).map (fun s => s.id)) ∧
      (construct env this source_ monitor title ProjectorType.Multiview w).calls =
        w.calls ++ ((visibleScenes env.scenes).take 8).map (fun s => ShowingCall.inc s.id) ++
          obs_source_inc_showing source_ := by
  unfold construct
  simp only [if_true, Function.update_same]
  refine ⟨_, rfl, ?_, ?_, ?_, ?_⟩
  · by_cases hm : monitor < 0 <;> simp [hm, UpdateMultiview, UpdateProjectorTitle]
  · by_cases hm : monitor < 0 <;> simp [hm, UpdateMultiview, UpdateProjectorTitle]
  · intro k
    simp only
    rw [UpdateMultiview_multiviewScenes]
  · rw [UpdateMultiview_calls]
    cases source_ <;> rfl

/-- The showing calls of the destructor. -/
theorem destroy_calls (alive : Nat → Bool) (this : Nat) (w : World) (p : OBSProjector)
    (hp : w.heap this = some p) :
    ∃ w2, destroy alive this w = some w2 ∧
      w2.calls = w.calls ++ obs_source_dec_showing p.source ++
        (if p.type = ProjectorType.Multiview then destroy.sceneCalls alive p else []) := by
  unfold destroy
  rw [hp]
  refine ⟨_, rfl, ?_⟩
  by_cases h : p.type = ProjectorType.Multiview <;> cases hs : p.source <;>
    simp [h, obs_source_dec_showing]

theorem incCount_append (a b : List ShowingCall) (src : Nat) :
    incCount (a ++ b) src = incCount a src + incCount b src := by
  simp [incCount]

theorem decCount_append (a b : List ShowingCall) (src : Nat) :
    decCount (a ++ b) src = decCount a src + decCount b src := by
  simp [decCount]

theorem count_map_inc (l : List FrontendScene) (src : Nat) :
    incCount (l.map (fun s => ShowingCall.inc s.id)) src =
      decCount (l.map (fun s => ShowingCall.dec s.id)) src ∧
    decCount (l.map (fun s => ShowingCall.inc s.id)) src = 0 ∧
    incCount (l.map (fun s => ShowingCall.dec s.id)) src = 0 := by
  induction l with
  | nil => simp [incCount, decCount]
  | cons s t ih =>
    obtain ⟨h1, h2, h3⟩ := ih
    simp only [incCount, decCount] at h1 h2 h3 ⊢
    simp only [List.map_cons, List.count_cons, h1, h2, h3]
    refine ⟨?_, ?_, ?_⟩
    · by_cases h : s.id = src <;> simp [h]
    · simp
    · simp

/-- A multiview projector that is destroyed before any update, all scenes
alive, has made as many `obs_source_inc_showing` as `obs_source_dec_showing`
calls on every source. -/
theorem construct_destroy_balanced (env : Frontend) (this : Nat) (source_ : Option Nat)
    (monitor : Int) (title : String) (w : World) (alive : Nat → Bool)
    (halive : ∀ src, alive src = true) :
    ∃ w2 added,
      destroy alive this
        (construct env this source_ monitor title ProjectorType.Multiview w) = some w2 ∧
      w2.calls = w.calls ++ added ∧
      ∀ src, incCount added src = decCount added src := by
  obtain ⟨p1, hheap, hsource, htype, hslots, hcalls⟩ :=
    construct_multiview env this source_ monitor title w
  obtain ⟨w2, hd, hw2⟩ := destroy_calls alive this _ p1 hheap
  refine ⟨w2, ((visibleScenes env.scenes).take 8).map (fun s => ShowingCall.inc s.id) ++
    obs_source_inc_showing source_ ++ obs_source_dec_showing source_ ++
    ((visibleScenes env.scenes).take 8).map (fun s => ShowingCall.dec s.id), hd, ?_, ?_⟩
  · rw [hw2, hcalls, hsource, if_pos htype, sceneCalls_of_slots env.scenes alive halive p1 hslots]
    simp only [List.append_assoc]
  · intro src
    obtain ⟨c1, c2, c3⟩ := count_map_inc ((visibleScenes env.scenes).take 8) src
    have hs : incCount (obs_source_inc_showing source_) src =
          decCount (obs_source_dec_showing source_) src ∧
        decCount (obs_source_inc_showing source_) src = 0 ∧
        incCount (obs_source_dec_showing source_) src = 0 := by
      cases source_ with
      | none => exact ⟨rfl, rfl, rfl⟩
      | some s =>
        by_cases h : s = src <;>
          simp [incCount, decCount, obs_source_inc_showing, obs_source_dec_showing,
            List.count_cons, h]
    simp only [incCount_append, decCount_append]
    omega

theorem updateLoop_decCount (env : Frontend) (l : List Nat) (w w1 : World)
    (h : UpdateMultiviewProjectors.loop env l w = some w1) (src : Nat) :
    decCount w1.calls src = decCount w.calls src := by
  induction l generalizing w with
  | nil =>
    simp only [UpdateMultiviewProjectors.loop, Option.some.injEq] at h
    subst h
    rfl
  | cons q rest ih =>
    rw [UpdateMultiviewProjectors.loop] at h
    cases hq : w.heap q with
    | none => rw [hq] at h; simp at h
    | some p =>
      rw [hq] at h
      simp only at h
      rw [ih _ h]
      simp only [decCount_append, UpdateMultiview_calls]
      rw [(count_map_inc _ src).2.1]
      rfl

/-- `UpdateMultiviewProjectors` makes no `obs_source_dec_showing` call: the
references of the slots it overwrites stay counted. -/
theorem UpdateMultiviewProjectors_decCount (env : Frontend) (w w1 : World)
    (h : UpdateMultiviewProjectors env w = some w1) (src : Nat) :
    decCount w1.calls src = decCount w.calls src := by
  unfold UpdateMultiviewProjectors at h
  simp only at h
  cases hl : UpdateMultiviewProjectors.loop env w.statics.multiviewProjectors
      { w with statics := { w.statics with updatingMultiview := true } } with
  | none => rw [hl] at h; simp at h
  | some w2 =>
    rw [hl] at h
    simp only [Option.some.injEq] at h
    subst h
    exact updateLoop_decCount env _ _ _ hl src

/-- C11: an update leaks the showing references of the slots. A multiview
projector constructed over the scenes 10 (shown), 11 (hidden) and 12 (shown),
updated once by `UpdateMultiviewProjectors` and then destroyed, all scenes
alive, has made two `obs_source_inc_showing` calls and one
`obs_source_dec_showing` call on scene 10, and the same on scene 12; without
the update the calls are balanced. -/
theorem C11_update_leaks_showing :
    ((UpdateMultiviewProjectors exampleFrontend exampleWorld).bind
        (destroy (fun _ => true) 1)).map
      (fun w => (incCount w.calls 10, decCount w.calls 10, incCount w.calls 12,
        decCount w.calls 12)) = some (2, 1, 2, 1) ∧
    (destroy (fun _ => true) 1 exampleWorld).map
      (fun w => (incCount w.calls 10, decCount w.calls 10, incCount w.calls 12,
        decCount w.calls 12)) = some (1, 1, 1, 1) ∧
    exampleWorld.calls = [ShowingCall.inc 10, ShowingCall.inc 12] := by
  decide

/-! ## Showing counts of OBSRender -/

/-- `OBSRender` writes no field of the projector. -/
theorem OBSRender_window (main : OBSBasic) (base_width base_height : Nat)
    (sourceSize : Nat → Nat × Nat) (window : OBSProjector) :
    (OBSRender main base_width base_height sourceSize window).window = window := by
  unfold OBSRender
  split
  · rfl
  · simp only
    split
    · split <;> rfl
    · rfl

/-- Every frame makes the showing calls of the frame before it, as long as
the main window stays as it is. -/
theorem OBSRender_repeats (main : OBSBasic) (base_width base_height : Nat)
    (sourceSize : Nat → Nat × Nat) (window : OBSProjector) :
    (OBSRender main base_width base_height sourceSize
      (OBSRender main base_width base_height sourceSize window).window).calls =
    (OBSRender main base_width base_height sourceSize window).calls := by
  rw [OBSRender_window]

/-- A projector that is not of type `Preview`, or any projector while the main
window is not in studio mode, makes no showing call in `OBSRender`. -/
theorem OBSRender_other_calls (main : OBSBasic) (base_width base_height : Nat)
    (sourceSize : Nat → Nat × Nat) (window : OBSProjector)
    (h : window.type ≠ ProjectorType.Preview ∨ main.previewProgramMode = false) :
    (OBSRender main base_width base_height sourceSize window).calls = [] := by
  unfold OBSRender
  split
  · rfl
  · simp only
    have hn : ¬ (window.type = ProjectorType.Preview ∧ main.previewProgramMode = true) := by
      rintro ⟨h1, h2⟩
      rcases h with h | h
      · exact h h1
      · rw [h] at h2
        exact absurd h2 (by decide)
    rw [if_neg hn]

/-- C12: rendering a second frame moves the showing reference again. A
preview projector (no source of its own) in studio mode with current scene 1
raises the showing count of scene 1 by one in its first frame and by one more
in the second frame, although the current scene is the same: two frames raise
it by 2, one frame by 1. -/
theorem C12_second_frame_moves_again :
    (OBSRender exampleMain 1920 1080 (fun _ => (1920, 1080)) examplePreviewProjector).calls =
      [ShowingCall.inc 1] ∧
    (OBSRender exampleMain 1920 1080 (fun _ => (1920, 1080))
      (OBSRender exampleMain 1920 1080 (fun _ => (1920, 1080))
        examplePreviewProjector).window).calls = [ShowingCall.inc 1] ∧
    showingChange
      (OBSRender exampleMain 1920 1080 (fun _ => (1920, 1080)) examplePreviewProjector).calls 1
      = 1 ∧
    showingChange
      ((OBSRender exampleMain 1920 1080 (fun _ => (1920, 1080)) examplePreviewProjector).calls ++
        (OBSRender exampleMain 1920 1080 (fun _ => (1920, 1080))
          (OBSRender exampleMain 1920 1080 (fun _ => (1920, 1080))
            examplePreviewProjector).window).calls) 1 = 2 := by
  decide

/-! ## The label offset -/

theorem toInt_quarter (w : Nat) : toInt ((w : ℚ) * (1 / ((4 : Nat) : ℚ))) = ((w / 4 : Nat) : Int) := by
  have h0 : (0 : ℚ) ≤ (w : ℚ) * (1 / ((4 : Nat) : ℚ)) := by positivity
  unfold toInt
  rw [Int.tdiv_eq_ediv (Rat.num_nonneg.mpr h0) (by positivity), ← Rat.floor_def']
  have e : (w : ℚ) * (1 / ((4 : Nat) : ℚ)) = ((w : ℚ) / ((4 : Nat) : ℚ)) := by ring
  rw [e]
  exact Rat.floor_natCast_div_natCast w 4

/-- Where the quarter of the label width fits under half of the cell width,
`labelOffset` is the difference of the two and at most half of the cell
width. -/
theorem labelOffset_of_le (layout : MultiviewLayout) (w cx : Nat) (hw : w < 2 ^ 32)
    (hcx : cx < 2 ^ 32) (h : w / 4 ≤ cx / 2) :
    labelOffset layout w cx = cx / 2 - w / 4 ∧ labelOffset layout w cx ≤ cx / 2 := by
  have e : labelOffset layout w cx = cx / 2 - w / 4 := by
    unfold labelOffset
    simp only [toInt_quarter, Int.toNat_ofNat]
    have h1 : w / 4 % 2 ^ 32 = w / 4 := Nat.mod_eq_of_lt (by omega)
    rw [h1]
    omega
  exact ⟨e, by omega⟩

/-- Where the quarter of the label width exceeds half of the cell width, the
unsigned difference wraps: `labelOffset` is `2 ^ 32` above the difference. -/
theorem labelOffset_of_gt (layout : MultiviewLayout) (w cx : Nat) (hw : w < 2 ^ 32)
    (hcx : cx < 2 ^ 32) (h : cx / 2 < w / 4) :
    labelOffset layout w cx = 2 ^ 32 + cx / 2 - w / 4 := by
  unfold labelOffset
  simp only [toInt_quarter, Int.toNat_ofNat]
  have h1 : w / 4 % 2 ^ 32 = w / 4 := Nat.mod_eq_of_lt (by omega)
  rw [h1]
  omega

/-- C13: the label offset wraps. For a label 1000 pixels wide in a cell 480
pixels wide (a 1920 x 1080 canvas) the quarter of the label width, 250,
exceeds half of the cell width, 240; `labelOffset` returns
`2 ^ 32 - 10 = 4294967286`, not `240 - 250`, which is above `cx / 2`, and the
label of cell 0 is drawn at x = 4294967286, to the right of the centre 240 of
the cell. -/
theorem C13_label_offset_wraps :
    labelOffset .HORIZONTAL_TOP_8_SCENES 1000 480 = 4294967286 ∧
    ((labelOffset .HORIZONTAL_TOP_8_SCENES 1000 480 : Nat) : Int) ≠ (480 / 2 : Int) - (1000 / 4 : Int) ∧
    ¬ labelOffset .HORIZONTAL_TOP_8_SCENES 1000 480 ≤ 480 / 2 ∧
    (geometry 1920 1080).quarterCX = 480 ∧
    sceneLabelX .HORIZONTAL_TOP_8_SCENES (geometry 1920 1080) 0 1000 = 4294967286 ∧
    (calcBaseSource .HORIZONTAL_TOP_8_SCENES (geometry 1920 1080) 0).sourceX
      + (geometry 1920 1080).quarterCX / 2 = 240 := by
  decide!

end Projector
